import Mathlib

/-!
Packet module (Lab1/Sources/packet.c) and real time clock (Lab3/Sources/RTC.c) of the
tower firmware.

A shallow embedding of `Packet_Get`, `Packet_Put`, `Packet_Handle` and `PacketTest`,
and of `RTC_Set` and `RTC_Get`.
Every `uint8_t` object of the C code is a natural number; the theorems quantify over
values below 256, the range in which no C operation used here wraps. Where C converts
an `int` result to `uint8_t`, the embedding writes `% 256`.
-/

namespace Packet

/-! ## Data model -/

/-- The global variables of packet.c: the five received packet bytes, the cursor
`packet_position`, and the two tower number bytes. -/
structure PacketState where
  Packet_Command : Nat
  Packet_Parameter1 : Nat
  Packet_Parameter2 : Nat
  Packet_Parameter3 : Nat
  Packet_Checksum : Nat
  packet_position : Nat
  towerNumberLsb : Nat
  towerNumberMsb : Nat
  deriving DecidableEq, Repr

/-- The constant `PACKET_ACK_MASK = 0x80u` of packet.c. -/
def PACKET_ACK_MASK : Nat := 0x80

/-- The value of the C expression `~PACKET_ACK_MASK`: the operand is promoted to a
32-bit `int`, so every bit except bit 7 is set. -/
def NOT_PACKET_ACK_MASK : Nat := 0xFFFFFFFF - PACKET_ACK_MASK

/-- The macros of packet.h used by `Packet_Handle`. The header is not among the
sources, so the values are parameters of the embedding. -/
structure Consts where
  GET_STARTUP_VAL : Nat
  GET_VERSION : Nat
  TOWER_NUMBER : Nat
  TOWER_NUMBER_GET : Nat
  TOWER_NUMBER_SET : Nat
  TOWER_STARTUP_COMM : Nat
  TOWER_STARTUP_PAR1 : Nat
  TOWER_STARTUP_PAR2 : Nat
  TOWER_STARTUP_PAR3 : Nat
  TOWER_VERSION_COMM : Nat
  TOWER_VERSION_V : Nat
  TOWER_VERSION_MAJ : Nat
  TOWER_VERSION_MIN : Nat
  TOWER_NUMBER_COMM : Nat
  TOWER_NUMBER_PAR1 : Nat
  deriving DecidableEq, Repr

/-! ## The byte sink -/

/-- The record of the calls made to `UART_OutChar`, oldest first: the byte handed to
the sink and whether the sink accepted it. -/
abbrev TxLog := List (Nat × Bool)

/-- The behaviour of the sink: given the calls made so far and the byte offered now,
does it accept the byte. -/
abbrev TxSink := TxLog → Nat → Bool

/-- Modelled from the spec: `UART_OutChar` (UART.c is not among the sources). The spec
gives `trySendByte(b) -> bool`, non-blocking, false when the byte is not taken. The call
is appended to the record together with its result. -/
def UART_OutChar (tx : TxSink) (log : TxLog) (data : Nat) : Bool × TxLog :=
  (tx log data, log ++ [(data, tx log data)])

/-- A sink that accepts every byte. -/
def Accepts (tx : TxSink) : Prop := ∀ log data, tx log data = true

/-- The bytes handed to the sink, in order. -/
def TxBytes (log : TxLog) : List Nat := log.map Prod.fst

/-! ## Packet_Get -/

/-- `PacketTest` (packet.c 239-243): the checksum test on the stored packet. -/
def PacketTest (s : PacketState) : Bool :=
  let calculated_checksum :=
    (s.Packet_Command ^^^ s.Packet_Parameter1 ^^^ s.Packet_Parameter2
      ^^^ s.Packet_Parameter3) % 256
  calculated_checksum == s.Packet_Checksum

/-- `Packet_Get` (packet.c 67-129). The argument `rx` is the outcome of
`UART_InChar(&uartData)`: `none` when it reports failure, `some uartData` otherwise. -/
def Packet_Get (rx : Option Nat) (s : PacketState) : Bool × PacketState :=
  match rx with
  | none => (false, s)
  | some uartData =>
    if s.packet_position = 0 then
      (false, { s with Packet_Command := uartData,
                       packet_position := s.packet_position + 1 })
    else if s.packet_position = 1 then
      (false, { s with Packet_Parameter1 := uartData,
                       packet_position := s.packet_position + 1 })
    else if s.packet_position = 2 then
      (false, { s with Packet_Parameter2 := uartData,
                       packet_position := s.packet_position + 1 })
    else if s.packet_position = 3 then
      (false, { s with Packet_Parameter3 := uartData,
                       packet_position := s.packet_position + 1 })
    else if s.packet_position = 4 then
      let s1 := { s with Packet_Checksum := uartData }
      if PacketTest s1 then
        (true, { s1 with packet_position := 0 })
      else
        let s2 := { s1 with Packet_Command := s1.Packet_Parameter1 }
        let s3 := { s2 with Packet_Parameter1 := s2.Packet_Parameter2 }
        let s4 := { s3 with Packet_Parameter2 := s3.Packet_Parameter3 }
        let s5 := { s4 with Packet_Parameter3 := s4.Packet_Checksum }
        (false, { s5 with packet_position := 0 })
    else
      (false, { s with packet_position := 0 })

/-- Calls `Packet_Get` once per byte of `bytes`, each call finding that byte in the
receiver; returns the results of the calls in order and the final state. -/
def Packet_Get_bytes : List Nat → PacketState → List Bool × PacketState
  | [], s => ([], s)
  | b :: bs, s =>
    let r := Packet_Get (some b) s
    let rest := Packet_Get_bytes bs r.2
    (r.1 :: rest.1, rest.2)

/-! ## Packet_Put -/

/-- `Packet_Put` (packet.c 135-148). -/
def Packet_Put (tx : TxSink) (log : TxLog)
    (command parameter1 parameter2 parameter3 : Nat) : Bool × TxLog :=
  let r1 := UART_OutChar tx log command
  if !r1.1 then (false, r1.2) else
  let r2 := UART_OutChar tx r1.2 parameter1
  if !r2.1 then (false, r2.2) else
  let r3 := UART_OutChar tx r2.2 parameter2
  if !r3.1 then (false, r3.2) else
  let r4 := UART_OutChar tx r3.2 parameter3
  if !r4.1 then (false, r4.2) else
  let r5 := UART_OutChar tx r4.2
    ((command ^^^ parameter1 ^^^ parameter2 ^^^ parameter3) % 256)
  if !r5.1 then (false, r5.2) else
  (true, r5.2)

/-! ## Packet_Handle -/

/-- `Packet_Handle` (packet.c 154-231). The `switch` is an if-chain over the case
labels in source order; C requires the labels to be pairwise different. Returns the
record of the sink and the globals after the call. -/
def Packet_Handle (K : Consts) (tx : TxSink) (log : TxLog) (s : PacketState) :
    TxLog × PacketState :=
  let sw : Bool × TxLog × PacketState :=
    if s.Packet_Command &&& NOT_PACKET_ACK_MASK = K.GET_STARTUP_VAL then
      let r1 := Packet_Put tx log K.TOWER_STARTUP_COMM K.TOWER_STARTUP_PAR1
        K.TOWER_STARTUP_PAR2 K.TOWER_STARTUP_PAR3
      if r1.1 then
        let r2 := Packet_Put tx r1.2 K.TOWER_VERSION_COMM K.TOWER_VERSION_V
          K.TOWER_VERSION_MAJ K.TOWER_VERSION_MIN
        if r2.1 then
          let r3 := Packet_Put tx r2.2 K.TOWER_NUMBER_COMM K.TOWER_NUMBER_PAR1
            s.towerNumberLsb s.towerNumberMsb
          if r3.1 then (false, r3.2, s) else (true, r3.2, s)
        else (true, r2.2, s)
      else (true, r1.2, s)
    else if s.Packet_Command &&& NOT_PACKET_ACK_MASK = K.GET_VERSION then
      let r1 := Packet_Put tx log K.TOWER_VERSION_COMM K.TOWER_VERSION_V
        K.TOWER_VERSION_MAJ K.TOWER_VERSION_MIN
      if r1.1 then (false, r1.2, s) else (true, r1.2, s)
    else if s.Packet_Command &&& NOT_PACKET_ACK_MASK = K.TOWER_NUMBER then
      if s.Packet_Parameter1 = K.TOWER_NUMBER_GET then
        let r1 := Packet_Put tx log K.TOWER_NUMBER_COMM K.TOWER_NUMBER_PAR1
          s.towerNumberLsb s.towerNumberMsb
        if r1.1 then (false, r1.2, s) else (true, r1.2, s)
      else if s.Packet_Parameter1 = K.TOWER_NUMBER_SET then
        let s1 := { s with towerNumberLsb := s.Packet_Parameter2 }
        let s2 := { s1 with towerNumberMsb := s1.Packet_Parameter3 }
        (false, log, s2)
      else (true, log, s)
    else (true, log, s)
  let error := sw.1
  let log1 := sw.2.1
  let s1 := sw.2.2
  if s1.Packet_Command &&& PACKET_ACK_MASK ≠ 0 then
    let maskedPacket :=
      if error = true then s1.Packet_Command &&& NOT_PACKET_ACK_MASK
      else s1.Packet_Command ||| PACKET_ACK_MASK
    let r := Packet_Put tx log1 maskedPacket s1.Packet_Parameter1
      s1.Packet_Parameter2 s1.Packet_Parameter3
    (r.2, s1)
  else (log1, s1)

/-- The `switch` statement of `Packet_Handle` (packet.c 156-210) on its own: the value
of `error` after it, the record of the sink and the globals. -/
def Packet_Handle_switch (K : Consts) (tx : TxSink) (log : TxLog) (s : PacketState) :
    Bool × TxLog × PacketState :=
  if s.Packet_Command &&& NOT_PACKET_ACK_MASK = K.GET_STARTUP_VAL then
    let r1 := Packet_Put tx log K.TOWER_STARTUP_COMM K.TOWER_STARTUP_PAR1
      K.TOWER_STARTUP_PAR2 K.TOWER_STARTUP_PAR3
    if r1.1 then
      let r2 := Packet_Put tx r1.2 K.TOWER_VERSION_COMM K.TOWER_VERSION_V
        K.TOWER_VERSION_MAJ K.TOWER_VERSION_MIN
      if r2.1 then
        let r3 := Packet_Put tx r2.2 K.TOWER_NUMBER_COMM K.TOWER_NUMBER_PAR1
          s.towerNumberLsb s.towerNumberMsb
        if r3.1 then (false, r3.2, s) else (true, r3.2, s)
      else (true, r2.2, s)
    else (true, r1.2, s)
  else if s.Packet_Command &&& NOT_PACKET_ACK_MASK = K.GET_VERSION then
    let r1 := Packet_Put tx log K.TOWER_VERSION_COMM K.TOWER_VERSION_V
      K.TOWER_VERSION_MAJ K.TOWER_VERSION_MIN
    if r1.1 then (false, r1.2, s) else (true, r1.2, s)
  else if s.Packet_Command &&& NOT_PACKET_ACK_MASK = K.TOWER_NUMBER then
    if s.Packet_Parameter1 = K.TOWER_NUMBER_GET then
      let r1 := Packet_Put tx log K.TOWER_NUMBER_COMM K.TOWER_NUMBER_PAR1
        s.towerNumberLsb s.towerNumberMsb
      if r1.1 then (false, r1.2, s) else (true, r1.2, s)
    else if s.Packet_Parameter1 = K.TOWER_NUMBER_SET then
      let s1 := { s with towerNumberLsb := s.Packet_Parameter2 }
      let s2 := { s1 with towerNumberMsb := s1.Packet_Parameter3 }
      (false, log, s2)
    else (true, log, s)
  else (true, log, s)

/-- The values the macros have in the tower protocol, used to instantiate the
theorems below at concrete inputs. -/
def towerConsts : Consts :=
  { GET_STARTUP_VAL := 0x04, GET_VERSION := 0x09, TOWER_NUMBER := 0x0B,
    TOWER_NUMBER_GET := 1, TOWER_NUMBER_SET := 2,
    TOWER_STARTUP_COMM := 0x04, TOWER_STARTUP_PAR1 := 0, TOWER_STARTUP_PAR2 := 0,
    TOWER_STARTUP_PAR3 := 0,
    TOWER_VERSION_COMM := 0x09, TOWER_VERSION_V := 0x76, TOWER_VERSION_MAJ := 1,
    TOWER_VERSION_MIN := 0,
    TOWER_NUMBER_COMM := 0x0B, TOWER_NUMBER_PAR1 := 1 }

/-- A sink that accepts every byte, as a function. -/
def acceptAll : TxSink := fun _ _ => true

/-- An arbitrary start state with the cursor at 0. -/
def stateAt0 : PacketState :=
  { Packet_Command := 0, Packet_Parameter1 := 0, Packet_Parameter2 := 0,
    Packet_Parameter3 := 0, Packet_Checksum := 0, packet_position := 0,
    towerNumberLsb := 0, towerNumberMsb := 0 }

/-- A state with the cursor at 4 holding the data bytes 1, 2, 3, 4. -/
def stateAt4 : PacketState :=
  { Packet_Command := 1, Packet_Parameter1 := 2, Packet_Parameter2 := 3,
    Packet_Parameter3 := 4, Packet_Checksum := 0, packet_position := 4,
    towerNumberLsb := 0, towerNumberMsb := 0 }

/-- The five bytes of the frame for a command and its three parameters: the four data
bytes, then their XOR. -/
def frame (command parameter1 parameter2 parameter3 : Nat) : List Nat :=
  [command, parameter1, parameter2, parameter3,
    command ^^^ parameter1 ^^^ parameter2 ^^^ parameter3]

/-- The record entries of bytes that were offered to the sink and accepted. -/
def accepted (bytes : List Nat) : TxLog := bytes.map fun b => (b, true)

/-- A sink that accepts two bytes and refuses every byte after them. -/
def acceptTwo : TxSink := fun log _ => decide (log.length < 2)

/-- A packet GET_VERSION with the acknowledgment bit set and parameters 1, 2, 3. -/
def stateGetVersionAck : PacketState :=
  { Packet_Command := 0x89, Packet_Parameter1 := 1, Packet_Parameter2 := 2,
    Packet_Parameter3 := 3, Packet_Checksum := 0x89, packet_position := 0,
    towerNumberLsb := 0x66, towerNumberMsb := 0x05 }

/-- A packet TOWER_NUMBER/SET with the acknowledgment bit set and the value 0x1234. -/
def stateSetNumberAck : PacketState :=
  { Packet_Command := 0x8B, Packet_Parameter1 := 2, Packet_Parameter2 := 0x34,
    Packet_Parameter3 := 0x12, Packet_Checksum := 0xAF, packet_position := 0,
    towerNumberLsb := 0x66, towerNumberMsb := 0x05 }

/-- A packet with the unmatched command code 0x7F and the acknowledgment bit set. -/
def stateUnmatchedAck : PacketState :=
  { Packet_Command := 0xFF, Packet_Parameter1 := 1, Packet_Parameter2 := 2,
    Packet_Parameter3 := 3, Packet_Checksum := 0xFF, packet_position := 0,
    towerNumberLsb := 0x66, towerNumberMsb := 0x05 }

/-- Every macro value that `Packet_Handle` hands to `Packet_Put` is a byte. -/
@[reducible] def Consts.ResponseBytes (K : Consts) : Prop :=
  K.TOWER_STARTUP_COMM < 256 ∧ K.TOWER_STARTUP_PAR1 < 256 ∧
  K.TOWER_STARTUP_PAR2 < 256 ∧ K.TOWER_STARTUP_PAR3 < 256 ∧
  K.TOWER_VERSION_COMM < 256 ∧ K.TOWER_VERSION_V < 256 ∧
  K.TOWER_VERSION_MAJ < 256 ∧ K.TOWER_VERSION_MIN < 256 ∧
  K.TOWER_NUMBER_COMM < 256 ∧ K.TOWER_NUMBER_PAR1 < 256

/-- A sink that accepts seven bytes and refuses every byte after them. -/
def acceptSeven : TxSink := fun log _ => decide (log.length < 7)

/-- A packet GET_STARTUP with the acknowledgment bit set and parameters 0, 0, 0. -/
def stateGetStartupAck : PacketState :=
  { Packet_Command := 0x84, Packet_Parameter1 := 0, Packet_Parameter2 := 0,
    Packet_Parameter3 := 0, Packet_Checksum := 0x84, packet_position := 0,
    towerNumberLsb := 0x66, towerNumberMsb := 0x05 }

/-- A sink that refuses the first byte it is offered and accepts every later one. -/
def refuseFirst : TxSink := fun log _ => decide (1 ≤ log.length)

/-- A packet TOWER_NUMBER/SET without the acknowledgment bit and the value 0x1234. -/
def stateSetNumber : PacketState :=
  { Packet_Command := 0x0B, Packet_Parameter1 := 2, Packet_Parameter2 := 0x34,
    Packet_Parameter3 := 0x12, Packet_Checksum := 0x2F, packet_position := 0,
    towerNumberLsb := 0x66, towerNumberMsb := 0x05 }

/-- A packet TOWER_NUMBER with the unknown sub-command 7 and the acknowledgment bit
set. -/
def stateNumberSub7Ack : PacketState :=
  { Packet_Command := 0x8B, Packet_Parameter1 := 7, Packet_Parameter2 := 0x34,
    Packet_Parameter3 := 0x12, Packet_Checksum := 0xAA, packet_position := 0,
    towerNumberLsb := 0x66, towerNumberMsb := 0x05 }

/-- Calls `Packet_Get` once per entry of `rxs`, the entry being what the receiver has
for that call (`none`: no byte available); returns the results and the final state. -/
def Packet_Get_calls : List (Option Nat) → PacketState → List Bool × PacketState
  | [], s => ([], s)
  | rx :: rxs, s =>
    let r := Packet_Get rx s
    let rest := Packet_Get_calls rxs r.2
    (r.1 :: rest.1, rest.2)

/-- Reference assembler that decodes the stream in fixed blocks of five bytes: as
`Packet_Get`, except that on a checksum mismatch it only resets the cursor to 0 and
does not shift the buffer. -/
def Packet_Get_noshift (rx : Option Nat) (s : PacketState) : Bool × PacketState :=
  match rx with
  | none => (false, s)
  | some uartData =>
    if s.packet_position = 0 then
      (false, { s with Packet_Command := uartData,
                       packet_position := s.packet_position + 1 })
    else if s.packet_position = 1 then
      (false, { s with Packet_Parameter1 := uartData,
                       packet_position := s.packet_position + 1 })
    else if s.packet_position = 2 then
      (false, { s with Packet_Parameter2 := uartData,
                       packet_position := s.packet_position + 1 })
    else if s.packet_position = 3 then
      (false, { s with Packet_Parameter3 := uartData,
                       packet_position := s.packet_position + 1 })
    else if s.packet_position = 4 then
      let s1 := { s with Packet_Checksum := uartData }
      if PacketTest s1 then
        (true, { s1 with packet_position := 0 })
      else
        (false, { s1 with packet_position := 0 })
    else
      (false, { s with packet_position := 0 })

/-- What a caller sees of one call: nothing on a false result, the five stored packet
bytes on a true result. -/
def delivered (r : Bool × PacketState) : Option (Nat × Nat × Nat × Nat × Nat) :=
  if r.1 then
    some (r.2.Packet_Command, r.2.Packet_Parameter1, r.2.Packet_Parameter2,
      r.2.Packet_Parameter3, r.2.Packet_Checksum)
  else none

/-- Feeds `bytes` one per call to the assembler `get` and lists what each call
delivers. -/
def Packet_Get_trace (get : Option Nat → PacketState → Bool × PacketState) :
    List Nat → PacketState → List (Option (Nat × Nat × Nat × Nat × Nat))
  | [], _ => []
  | b :: bs, s => delivered (get (some b) s) :: Packet_Get_trace get bs (get (some b) s).2

/-- The record entries made when `bytes` are offered to the sink one after the other
until the first refusal: every accepted byte, then the refused byte if there is one,
and nothing after it. -/
def offer (tx : TxSink) : TxLog → List Nat → TxLog
  | _, [] => []
  | log, b :: bs =>
    if tx log b then (b, true) :: offer tx (log ++ [(b, true)]) bs else [(b, false)]

/-- The bytes of the response packets that the stored packet asks for, by the low
seven bits of its command: Startup, Version and Tower-Number frames for
GET_STARTUP_VAL, the Version frame for GET_VERSION, the Tower-Number frame for
TOWER_NUMBER with sub-command TOWER_NUMBER_GET, nothing otherwise. -/
def response (K : Consts) (s : PacketState) : List Nat :=
  if s.Packet_Command &&& 0x7F = K.GET_STARTUP_VAL then
    frame K.TOWER_STARTUP_COMM K.TOWER_STARTUP_PAR1 K.TOWER_STARTUP_PAR2
        K.TOWER_STARTUP_PAR3 ++
      frame K.TOWER_VERSION_COMM K.TOWER_VERSION_V K.TOWER_VERSION_MAJ
        K.TOWER_VERSION_MIN ++
      frame K.TOWER_NUMBER_COMM K.TOWER_NUMBER_PAR1 s.towerNumberLsb s.towerNumberMsb
  else if s.Packet_Command &&& 0x7F = K.GET_VERSION then
    frame K.TOWER_VERSION_COMM K.TOWER_VERSION_V K.TOWER_VERSION_MAJ K.TOWER_VERSION_MIN
  else if s.Packet_Command &&& 0x7F = K.TOWER_NUMBER then
    if s.Packet_Parameter1 = K.TOWER_NUMBER_GET then
      frame K.TOWER_NUMBER_COMM K.TOWER_NUMBER_PAR1 s.towerNumberLsb s.towerNumberMsb
    else []
  else []

/-- The stored packet selects a handler: its low seven command bits are
GET_STARTUP_VAL, GET_VERSION, or TOWER_NUMBER with sub-command TOWER_NUMBER_GET or
TOWER_NUMBER_SET. -/
def handled (K : Consts) (s : PacketState) : Bool :=
  if s.Packet_Command &&& 0x7F = K.GET_STARTUP_VAL then true
  else if s.Packet_Command &&& 0x7F = K.GET_VERSION then true
  else if s.Packet_Command &&& 0x7F = K.TOWER_NUMBER then
    if s.Packet_Parameter1 = K.TOWER_NUMBER_GET then true
    else if s.Packet_Parameter1 = K.TOWER_NUMBER_SET then true
    else false
  else false

/-- The command byte of the acknowledgment: the received command with bit 0x80 set
when a handler was selected and the sink accepted every response byte, the received
command with bit 0x80 cleared otherwise. -/
def ackCommand (K : Consts) (tx : TxSink) (log : TxLog) (s : PacketState) : Nat :=
  if handled K s = true ∧ offer tx log (response K s) = accepted (response K s) then
    s.Packet_Command ||| 0x80
  else s.Packet_Command &&& 0x7F

/-- Two assembler states with the same cursor that agree on the data bytes stored
below the cursor. -/
def SameWindow (s t : PacketState) : Prop :=
  s.packet_position = t.packet_position ∧
  (1 ≤ s.packet_position → s.Packet_Command = t.Packet_Command) ∧
  (2 ≤ s.packet_position → s.Packet_Parameter1 = t.Packet_Parameter1) ∧
  (3 ≤ s.packet_position → s.Packet_Parameter2 = t.Packet_Parameter2) ∧
  (4 ≤ s.packet_position → s.Packet_Parameter3 = t.Packet_Parameter3)

end Packet

/-! ## Real time clock (Lab3/Sources/RTC.c) -/

namespace RTC

/-- The two RTC registers that `RTC_Set` and `RTC_Get` touch, both 32 bits wide. -/
structure RTCRegs where
  RTC_TSR : Nat
  RTC_SR : Nat
  deriving DecidableEq, Repr

/-- `RTC_Set` (RTC.c 92-105). `RTC_SR_TCE_MASK` comes from MK70F12.h, which is not
among the sources, and is a parameter. The sum is computed in `int` from the promoted
`uint8_t` arguments and stored in a `uint32_t`. -/
def RTC_Set (RTC_SR_TCE_MASK : Nat) (r : RTCRegs) (hours minutes seconds : Nat) :
    RTCRegs :=
  let timeInSeconds := ((hours * 3600) + (minutes * 60) + seconds) % 2 ^ 32
  let r1 := { r with RTC_SR := r.RTC_SR &&& (0xFFFFFFFF - RTC_SR_TCE_MASK) }
  let r2 := { r1 with RTC_TSR := timeInSeconds }
  { r2 with RTC_SR := (r2.RTC_SR ||| RTC_SR_TCE_MASK) % 2 ^ 32 }

/-- `RTC_Get` (RTC.c 114-123): the values stored through `hours`, `minutes` and
`seconds`, each converted to `uint8_t`. -/
def RTC_Get (r : RTCRegs) : Nat × Nat × Nat :=
  let currentSeconds := r.RTC_TSR
  ((currentSeconds / 3600) % 256,
    ((currentSeconds % 3600) / 60) % 256,
    ((currentSeconds % 3600) % 60) % 256)

/-- Registers after reset: counter 0, status 0. -/
def regs0 : RTCRegs := { RTC_TSR := 0, RTC_SR := 0 }

end RTC

namespace Packet

/-! ## Auxiliary facts -/

theorem xor4_lt {a b c d : Nat} (ha : a < 256) (hb : b < 256) (hc : c < 256)
    (hd : d < 256) : a ^^^ b ^^^ c ^^^ d < 256 := by
  have h8 : (256 : Nat) = 2 ^ 8 := by norm_num
  rw [h8] at ha hb hc hd ⊢
  exact Nat.xor_lt_two_pow (Nat.xor_lt_two_pow (Nat.xor_lt_two_pow ha hb) hc) hd

theorem xor4_mod {a b c d : Nat} (ha : a < 256) (hb : b < 256) (hc : c < 256)
    (hd : d < 256) : (a ^^^ b ^^^ c ^^^ d) % 256 = a ^^^ b ^^^ c ^^^ d :=
  Nat.mod_eq_of_lt (xor4_lt ha hb hc hd)

/-- With a sink that accepts every byte, `Packet_Put` makes its five calls and
returns true. -/
theorem Packet_Put_of_accepts {tx : TxSink} (htx : Accepts tx) (log : TxLog)
    (c p1 p2 p3 : Nat) :
    Packet_Put tx log c p1 p2 p3 =
      (true, log ++ [(c, true), (p1, true), (p2, true), (p3, true),
        ((c ^^^ p1 ^^^ p2 ^^^ p3) % 256, true)]) := by
  simp [Packet_Put, UART_OutChar, htx _ _]

/-- Five bytes fed from cursor 0: four calls store, the fifth tests the checksum. -/
theorem Packet_Get_bytes_five (s : PacketState) (hpos : s.packet_position = 0)
    (b0 b1 b2 b3 b4 : Nat) :
    Packet_Get_bytes [b0, b1, b2, b3, b4] s =
      if (b0 ^^^ b1 ^^^ b2 ^^^ b3) % 256 = b4 then
        ([false, false, false, false, true],
          { s with Packet_Command := b0, Packet_Parameter1 := b1,
                   Packet_Parameter2 := b2, Packet_Parameter3 := b3,
                   Packet_Checksum := b4, packet_position := 0 })
      else
        ([false, false, false, false, false],
          { s with Packet_Command := b1, Packet_Parameter1 := b2,
                   Packet_Parameter2 := b3, Packet_Parameter3 := b4,
                   Packet_Checksum := b4, packet_position := 0 }) := by
  by_cases h : (b0 ^^^ b1 ^^^ b2 ^^^ b3) % 256 = b4
  · simp [Packet_Get_bytes, Packet_Get, PacketTest, hpos, h]
  · simp [Packet_Get_bytes, Packet_Get, PacketTest, hpos, h]

/-- Feeding a concatenation is feeding the first part, then the second. -/
theorem Packet_Get_bytes_append (xs ys : List Nat) (s : PacketState) :
    Packet_Get_bytes (xs ++ ys) s =
      ((Packet_Get_bytes xs s).1 ++ (Packet_Get_bytes ys (Packet_Get_bytes xs s).2).1,
        (Packet_Get_bytes ys (Packet_Get_bytes xs s).2).2) := by
  induction xs generalizing s with
  | nil => simp [Packet_Get_bytes]
  | cons x xs ih => simp [Packet_Get_bytes, ih]

/-- Changing one data byte of a frame changes the XOR of its four data bytes. -/
theorem xor4_slot0 {a v b c d : Nat} (h : v ^^^ b ^^^ c ^^^ d = a ^^^ b ^^^ c ^^^ d) :
    v = a :=
  Nat.xor_left_injective (Nat.xor_left_injective (Nat.xor_left_injective h))

theorem xor4_slot1 {a b v c d : Nat} (h : a ^^^ v ^^^ c ^^^ d = a ^^^ b ^^^ c ^^^ d) :
    v = b :=
  Nat.xor_right_injective (Nat.xor_left_injective (Nat.xor_left_injective h))

theorem xor4_slot2 {a b c v d : Nat} (h : a ^^^ b ^^^ v ^^^ d = a ^^^ b ^^^ c ^^^ d) :
    v = c :=
  Nat.xor_right_injective (Nat.xor_left_injective h)

theorem xor4_slot3 {a b c d v : Nat} (h : a ^^^ b ^^^ c ^^^ v = a ^^^ b ^^^ c ^^^ d) :
    v = d :=
  Nat.xor_right_injective h

set_option maxRecDepth 20000 in
/-- On a byte, masking with the promoted `~PACKET_ACK_MASK` keeps the low seven bits. -/
theorem land_not_mask (c : Nat) (hc : c < 256) :
    c &&& NOT_PACKET_ACK_MASK = c &&& 0x7F := by
  have h : ∀ n, n < 256 → n &&& NOT_PACKET_ACK_MASK = n &&& 0x7F := by decide
  exact h c hc

set_option maxRecDepth 20000 in
/-- A seven-bit code with the acknowledgment bit set: the bit is set, masking it out
gives the code back, setting it again changes nothing, and the value is a byte. -/
theorem lor_mask_facts (c : Nat) (hc : c < 128) :
    (c ||| PACKET_ACK_MASK) &&& NOT_PACKET_ACK_MASK = c ∧
    (c ||| PACKET_ACK_MASK) &&& PACKET_ACK_MASK ≠ 0 ∧
    (c ||| PACKET_ACK_MASK) ||| PACKET_ACK_MASK = c ||| PACKET_ACK_MASK ∧
    c ||| PACKET_ACK_MASK < 256 := by
  have h : ∀ n, n < 128 →
      (n ||| PACKET_ACK_MASK) &&& NOT_PACKET_ACK_MASK = n ∧
      (n ||| PACKET_ACK_MASK) &&& PACKET_ACK_MASK ≠ 0 ∧
      (n ||| PACKET_ACK_MASK) ||| PACKET_ACK_MASK = n ||| PACKET_ACK_MASK ∧
      n ||| PACKET_ACK_MASK < 256 := by decide
  exact h c hc

/-- The low seven bits of a byte are a byte. -/
theorem land_7F_lt (c : Nat) : c &&& 0x7F < 256 :=
  lt_of_le_of_lt Nat.and_le_right (by norm_num)

/-! ## Theorems -/

/-- C1: round trip of Packet_Put and Packet_Get. For all bytes command, parameter1,
parameter2, parameter3 and a sink that accepts every byte, the five bytes that
Packet_Put hands to the sink, fed in order to Packet_Get from cursor 0, give false on
the first four calls and true on the fifth, after which the four stored data fields
are the four values given to Packet_Put. -/
theorem Packet_Put_Get_roundtrip (tx : TxSink) (log : TxLog) (s : PacketState)
    (command parameter1 parameter2 parameter3 : Nat)
    (hc : command < 256) (h1 : parameter1 < 256) (h2 : parameter2 < 256)
    (h3 : parameter3 < 256) (htx : Accepts tx) (hpos : s.packet_position = 0) :
    (Packet_Get_bytes (TxBytes ((Packet_Put tx log command parameter1 parameter2
        parameter3).2.drop log.length)) s).1 = [false, false, false, false, true] ∧
    (Packet_Get_bytes (TxBytes ((Packet_Put tx log command parameter1 parameter2
        parameter3).2.drop log.length)) s).2.Packet_Command = command ∧
    (Packet_Get_bytes (TxBytes ((Packet_Put tx log command parameter1 parameter2
        parameter3).2.drop log.length)) s).2.Packet_Parameter1 = parameter1 ∧
    (Packet_Get_bytes (TxBytes ((Packet_Put tx log command parameter1 parameter2
        parameter3).2.drop log.length)) s).2.Packet_Parameter2 = parameter2 ∧
    (Packet_Get_bytes (TxBytes ((Packet_Put tx log command parameter1 parameter2
        parameter3).2.drop log.length)) s).2.Packet_Parameter3 = parameter3 := by
  rw [Packet_Put_of_accepts htx]
  simp only [List.drop_left, TxBytes, List.map]
  rw [Packet_Get_bytes_five s hpos, xor4_mod hc h1 h2 h3]
  simp

theorem Packet_Put_Get_roundtrip_witness :
    (Packet_Get_bytes (TxBytes ((Packet_Put acceptAll [] 0x8B 2 0x34 0x12).2.drop
        ([] : TxLog).length)) stateAt0).1 = [false, false, false, false, true] ∧
    (Packet_Get_bytes (TxBytes ((Packet_Put acceptAll [] 0x8B 2 0x34 0x12).2.drop
        ([] : TxLog).length)) stateAt0).2.Packet_Command = 0x8B ∧
    (Packet_Get_bytes (TxBytes ((Packet_Put acceptAll [] 0x8B 2 0x34 0x12).2.drop
        ([] : TxLog).length)) stateAt0).2.Packet_Parameter1 = 2 ∧
    (Packet_Get_bytes (TxBytes ((Packet_Put acceptAll [] 0x8B 2 0x34 0x12).2.drop
        ([] : TxLog).length)) stateAt0).2.Packet_Parameter2 = 0x34 ∧
    (Packet_Get_bytes (TxBytes ((Packet_Put acceptAll [] 0x8B 2 0x34 0x12).2.drop
        ([] : TxLog).length)) stateAt0).2.Packet_Parameter3 = 0x12 :=
  Packet_Put_Get_roundtrip acceptAll [] stateAt0 0x8B 2 0x34 0x12 (by decide) (by decide)
    (by decide) (by decide) (fun _ _ => rfl) rfl

/-- C2: Packet_Get never delivers a packet with a failing checksum. For every state
(any cursor, any stored bytes) and every outcome of the receiver, if Packet_Get
returns true then afterwards Packet_Checksum equals Packet_Command XOR
Packet_Parameter1 XOR Packet_Parameter2 XOR Packet_Parameter3. -/
theorem Packet_Get_true_checksum (rx : Option Nat) (s : PacketState)
    (hc : s.Packet_Command < 256) (h1 : s.Packet_Parameter1 < 256)
    (h2 : s.Packet_Parameter2 < 256) (h3 : s.Packet_Parameter3 < 256)
    (hret : (Packet_Get rx s).1 = true) :
    (Packet_Get rx s).2.Packet_Checksum =
      (Packet_Get rx s).2.Packet_Command ^^^ (Packet_Get rx s).2.Packet_Parameter1
        ^^^ (Packet_Get rx s).2.Packet_Parameter2
        ^^^ (Packet_Get rx s).2.Packet_Parameter3 := by
  cases rx with
  | none => simp [Packet_Get] at hret
  | some b =>
    unfold Packet_Get at hret ⊢
    simp only at hret ⊢
    split_ifs at hret ⊢ with p0 p1 p2 p3 p4 ht
    simp only [PacketTest, beq_iff_eq] at ht
    rw [xor4_mod hc h1 h2 h3] at ht
    simp [ht]

theorem Packet_Get_true_checksum_witness :
    (Packet_Get (some 4) stateAt4).1 = true ∧
    (Packet_Get (some 4) stateAt4).2.Packet_Checksum =
      (Packet_Get (some 4) stateAt4).2.Packet_Command
        ^^^ (Packet_Get (some 4) stateAt4).2.Packet_Parameter1
        ^^^ (Packet_Get (some 4) stateAt4).2.Packet_Parameter2
        ^^^ (Packet_Get (some 4) stateAt4).2.Packet_Parameter3 :=
  ⟨by decide,
   Packet_Get_true_checksum (some 4) stateAt4 (by decide) (by decide) (by decide)
    (by decide) (by decide)⟩

/-- C3: a checksum-valid frame is delivered. For all bytes b0..b3 and
b4 = b0 XOR b1 XOR b2 XOR b3, feeding the five bytes one per call from cursor 0 (any
stored bytes) gives false on calls 1 to 4 and true on call 5, with Packet_Command = b0,
Packet_Parameter1 = b1, Packet_Parameter2 = b2, Packet_Parameter3 = b3 and the cursor
back at 0. -/
theorem Packet_Get_valid_frame (s : PacketState) (b0 b1 b2 b3 b4 : Nat)
    (h0 : b0 < 256) (h1 : b1 < 256) (h2 : b2 < 256) (h3 : b3 < 256)
    (hsum : b4 = b0 ^^^ b1 ^^^ b2 ^^^ b3) (hpos : s.packet_position = 0) :
    (Packet_Get_bytes [b0, b1, b2, b3, b4] s).1 = [false, false, false, false, true] ∧
    (Packet_Get_bytes [b0, b1, b2, b3, b4] s).2.Packet_Command = b0 ∧
    (Packet_Get_bytes [b0, b1, b2, b3, b4] s).2.Packet_Parameter1 = b1 ∧
    (Packet_Get_bytes [b0, b1, b2, b3, b4] s).2.Packet_Parameter2 = b2 ∧
    (Packet_Get_bytes [b0, b1, b2, b3, b4] s).2.Packet_Parameter3 = b3 ∧
    (Packet_Get_bytes [b0, b1, b2, b3, b4] s).2.packet_position = 0 := by
  rw [Packet_Get_bytes_five s hpos, xor4_mod h0 h1 h2 h3, hsum]
  simp

theorem Packet_Get_valid_frame_witness :
    (Packet_Get_bytes [0x0B, 1, 0, 0, 0x0A] stateAt0).1 =
      [false, false, false, false, true] ∧
    (Packet_Get_bytes [0x0B, 1, 0, 0, 0x0A] stateAt0).2.Packet_Command = 0x0B ∧
    (Packet_Get_bytes [0x0B, 1, 0, 0, 0x0A] stateAt0).2.Packet_Parameter1 = 1 ∧
    (Packet_Get_bytes [0x0B, 1, 0, 0, 0x0A] stateAt0).2.Packet_Parameter2 = 0 ∧
    (Packet_Get_bytes [0x0B, 1, 0, 0, 0x0A] stateAt0).2.Packet_Parameter3 = 0 ∧
    (Packet_Get_bytes [0x0B, 1, 0, 0, 0x0A] stateAt0).2.packet_position = 0 :=
  Packet_Get_valid_frame stateAt0 0x0B 1 0 0 0x0A (by decide) (by decide) (by decide)
    (by decide) (by decide) rfl

/-- C4 (the code at the failing input): the stray byte 0xFF followed by the
checksum-valid frame 0x04 0x00 0x00 0x00 0x04, fed from cursor 0. All six calls return
false; the fifth call shifts the buffer and puts the cursor at 0, so the sixth call
stores the last byte of the frame as Packet_Command instead of testing it as the
checksum. -/
theorem Packet_Get_stray_then_frame :
    (Packet_Get_bytes [0xFF, 0x04, 0x00, 0x00, 0x00, 0x04] stateAt0).1 =
      [false, false, false, false, false, false] ∧
    (Packet_Get_bytes [0xFF, 0x04, 0x00, 0x00, 0x00] stateAt0).2.Packet_Command = 0x04 ∧
    (Packet_Get_bytes [0xFF, 0x04, 0x00, 0x00, 0x00] stateAt0).2.Packet_Parameter3 = 0x00 ∧
    (Packet_Get_bytes [0xFF, 0x04, 0x00, 0x00, 0x00] stateAt0).2.packet_position = 0 ∧
    (Packet_Get_bytes [0xFF, 0x04, 0x00, 0x00, 0x00, 0x04] stateAt0).2.packet_position = 1 := by
  decide

/-- After five bytes fed from cursor 0 the cursor is 0 again, so a sixth call never
returns true, whatever the bytes are. -/
theorem Packet_Get_sixth_call_false (s : PacketState) (hpos : s.packet_position = 0)
    (b0 b1 b2 b3 b4 b5 : Nat) :
    (Packet_Get (some b5) (Packet_Get_bytes [b0, b1, b2, b3, b4] s).2).1 = false := by
  rw [Packet_Get_bytes_five s hpos]
  split_ifs <;> simp [Packet_Get]

/-- C5: a single corrupted byte costs one cycle. For every checksum-valid frame
a0 a1 a2 a3 a4 in which the byte at one index i is replaced by a different byte v,
followed by every checksum-valid frame b0 b1 b2 b3 b4, feeding the ten bytes from
cursor 0 gives false on calls 1 to 9 and true on call 10, with the four data fields
of the second frame. -/
theorem Packet_Get_one_corrupted_byte (s : PacketState)
    (a0 a1 a2 a3 b0 b1 b2 b3 i v : Nat)
    (ha0 : a0 < 256) (ha1 : a1 < 256) (ha2 : a2 < 256) (ha3 : a3 < 256)
    (hb0 : b0 < 256) (hb1 : b1 < 256) (hb2 : b2 < 256) (hb3 : b3 < 256)
    (hi : i < 5) (hv : v < 256)
    (hne : [a0, a1, a2, a3, a0 ^^^ a1 ^^^ a2 ^^^ a3][i]? ≠ some v)
    (hpos : s.packet_position = 0) :
    (Packet_Get_bytes ([a0, a1, a2, a3, a0 ^^^ a1 ^^^ a2 ^^^ a3].set i v ++
        [b0, b1, b2, b3, b0 ^^^ b1 ^^^ b2 ^^^ b3]) s).1 =
      [false, false, false, false, false, false, false, false, false, true] ∧
    (Packet_Get_bytes ([a0, a1, a2, a3, a0 ^^^ a1 ^^^ a2 ^^^ a3].set i v ++
        [b0, b1, b2, b3, b0 ^^^ b1 ^^^ b2 ^^^ b3]) s).2.Packet_Command = b0 ∧
    (Packet_Get_bytes ([a0, a1, a2, a3, a0 ^^^ a1 ^^^ a2 ^^^ a3].set i v ++
        [b0, b1, b2, b3, b0 ^^^ b1 ^^^ b2 ^^^ b3]) s).2.Packet_Parameter1 = b1 ∧
    (Packet_Get_bytes ([a0, a1, a2, a3, a0 ^^^ a1 ^^^ a2 ^^^ a3].set i v ++
        [b0, b1, b2, b3, b0 ^^^ b1 ^^^ b2 ^^^ b3]) s).2.Packet_Parameter2 = b2 ∧
    (Packet_Get_bytes ([a0, a1, a2, a3, a0 ^^^ a1 ^^^ a2 ^^^ a3].set i v ++
        [b0, b1, b2, b3, b0 ^^^ b1 ^^^ b2 ^^^ b3]) s).2.Packet_Parameter3 = b3 := by
  have hB := xor4_mod hb0 hb1 hb2 hb3
  have hA := xor4_mod ha0 ha1 ha2 ha3
  rw [Packet_Get_bytes_append]
  interval_cases i
  · have hbad : ¬ (v ^^^ a1 ^^^ a2 ^^^ a3) % 256 = a0 ^^^ a1 ^^^ a2 ^^^ a3 := by
      rw [xor4_mod hv ha1 ha2 ha3]
      intro h
      exact hne (by simp [xor4_slot0 h])
    simp only [List.set_cons_zero]
    rw [Packet_Get_bytes_five s hpos, if_neg hbad, Packet_Get_bytes_five _ rfl, hB]
    simp
  · have hbad : ¬ (a0 ^^^ v ^^^ a2 ^^^ a3) % 256 = a0 ^^^ a1 ^^^ a2 ^^^ a3 := by
      rw [xor4_mod ha0 hv ha2 ha3]
      intro h
      exact hne (by simp [xor4_slot1 h])
    simp only [List.set_cons_succ, List.set_cons_zero]
    rw [Packet_Get_bytes_five s hpos, if_neg hbad, Packet_Get_bytes_five _ rfl, hB]
    simp
  · have hbad : ¬ (a0 ^^^ a1 ^^^ v ^^^ a3) % 256 = a0 ^^^ a1 ^^^ a2 ^^^ a3 := by
      rw [xor4_mod ha0 ha1 hv ha3]
      intro h
      exact hne (by simp [xor4_slot2 h])
    simp only [List.set_cons_succ, List.set_cons_zero]
    rw [Packet_Get_bytes_five s hpos, if_neg hbad, Packet_Get_bytes_five _ rfl, hB]
    simp
  · have hbad : ¬ (a0 ^^^ a1 ^^^ a2 ^^^ v) % 256 = a0 ^^^ a1 ^^^ a2 ^^^ a3 := by
      rw [xor4_mod ha0 ha1 ha2 hv]
      intro h
      exact hne (by simp [xor4_slot3 h])
    simp only [List.set_cons_succ, List.set_cons_zero]
    rw [Packet_Get_bytes_five s hpos, if_neg hbad, Packet_Get_bytes_five _ rfl, hB]
    simp
  · have hbad : ¬ (a0 ^^^ a1 ^^^ a2 ^^^ a3) % 256 = v := by
      rw [hA]
      intro h
      exact hne (by simp [h])
    simp only [List.set_cons_succ, List.set_cons_zero]
    rw [Packet_Get_bytes_five s hpos, if_neg hbad, Packet_Get_bytes_five _ rfl, hB]
    simp

theorem Packet_Get_one_corrupted_byte_witness :
    (Packet_Get_bytes ([0x0B, 1, 0, 0, 0x0B ^^^ 1 ^^^ 0 ^^^ 0].set 2 0x55 ++
        [0x09, 2, 3, 4, 0x09 ^^^ 2 ^^^ 3 ^^^ 4]) stateAt0).1 =
      [false, false, false, false, false, false, false, false, false, true] ∧
    (Packet_Get_bytes ([0x0B, 1, 0, 0, 0x0B ^^^ 1 ^^^ 0 ^^^ 0].set 2 0x55 ++
        [0x09, 2, 3, 4, 0x09 ^^^ 2 ^^^ 3 ^^^ 4]) stateAt0).2.Packet_Command = 0x09 ∧
    (Packet_Get_bytes ([0x0B, 1, 0, 0, 0x0B ^^^ 1 ^^^ 0 ^^^ 0].set 2 0x55 ++
        [0x09, 2, 3, 4, 0x09 ^^^ 2 ^^^ 3 ^^^ 4]) stateAt0).2.Packet_Parameter1 = 2 ∧
    (Packet_Get_bytes ([0x0B, 1, 0, 0, 0x0B ^^^ 1 ^^^ 0 ^^^ 0].set 2 0x55 ++
        [0x09, 2, 3, 4, 0x09 ^^^ 2 ^^^ 3 ^^^ 4]) stateAt0).2.Packet_Parameter2 = 3 ∧
    (Packet_Get_bytes ([0x0B, 1, 0, 0, 0x0B ^^^ 1 ^^^ 0 ^^^ 0].set 2 0x55 ++
        [0x09, 2, 3, 4, 0x09 ^^^ 2 ^^^ 3 ^^^ 4]) stateAt0).2.Packet_Parameter3 = 4 :=
  Packet_Get_one_corrupted_byte stateAt0 0x0B 1 0 0 0x09 2 3 4 2 0x55
    (by decide) (by decide) (by decide) (by decide) (by decide) (by decide) (by decide)
    (by decide) (by decide) (by decide) (by decide) rfl

/-- C6: with a sink that accepts every byte, Packet_Put returns true and hands to the
sink exactly five bytes, in this order: command, parameter1, parameter2, parameter3,
command XOR parameter1 XOR parameter2 XOR parameter3. -/
theorem Packet_Put_accepting (tx : TxSink) (log : TxLog)
    (command parameter1 parameter2 parameter3 : Nat)
    (hc : command < 256) (h1 : parameter1 < 256) (h2 : parameter2 < 256)
    (h3 : parameter3 < 256) (htx : Accepts tx) :
    (Packet_Put tx log command parameter1 parameter2 parameter3).1 = true ∧
    (Packet_Put tx log command parameter1 parameter2 parameter3).2 =
      log ++ [(command, true), (parameter1, true), (parameter2, true),
        (parameter3, true),
        (command ^^^ parameter1 ^^^ parameter2 ^^^ parameter3, true)] ∧
    TxBytes ((Packet_Put tx log command parameter1 parameter2 parameter3).2.drop
        log.length) =
      [command, parameter1, parameter2, parameter3,
        command ^^^ parameter1 ^^^ parameter2 ^^^ parameter3] := by
  rw [Packet_Put_of_accepts htx, xor4_mod hc h1 h2 h3]
  simp [TxBytes]

theorem Packet_Put_accepting_witness :
    (Packet_Put acceptAll [] 0x0B 1 0x34 0x12).1 = true ∧
    (Packet_Put acceptAll [] 0x0B 1 0x34 0x12).2 =
      [] ++ [(0x0B, true), (1, true), (0x34, true), (0x12, true),
        (0x0B ^^^ 1 ^^^ 0x34 ^^^ 0x12, true)] ∧
    TxBytes ((Packet_Put acceptAll [] 0x0B 1 0x34 0x12).2.drop ([] : TxLog).length) =
      [0x0B, 1, 0x34, 0x12, 0x0B ^^^ 1 ^^^ 0x34 ^^^ 0x12] :=
  Packet_Put_accepting acceptAll [] 0x0B 1 0x34 0x12 (by decide) (by decide)
    (by decide) (by decide) (fun _ _ => rfl)

/-- C7: Packet_Put aborts on the first sink failure. For all bytes and every sink,
(1) Packet_Put returns true exactly when each of the five bytes of the frame, offered
after the earlier ones were accepted, is accepted; (2) when it returns true the record
grew by the five accepted bytes of the frame; (3) when the write of the byte at index k
(k < 5, so the (k+1)-th write) is the first to fail, Packet_Put returns false and the
record grew by exactly the first k bytes of the frame, accepted, followed by the
refused byte: no write is made after the failure and nothing is retried or removed. -/
theorem Packet_Put_abort (tx : TxSink) (log : TxLog)
    (command parameter1 parameter2 parameter3 : Nat)
    (hc : command < 256) (h1 : parameter1 < 256) (h2 : parameter2 < 256)
    (h3 : parameter3 < 256) :
    ((Packet_Put tx log command parameter1 parameter2 parameter3).1 = true ↔
      ∀ j, j < 5 →
        tx (log ++ accepted ((frame command parameter1 parameter2 parameter3).take j))
          ((frame command parameter1 parameter2 parameter3).getD j 0) = true) ∧
    ((Packet_Put tx log command parameter1 parameter2 parameter3).1 = true →
      (Packet_Put tx log command parameter1 parameter2 parameter3).2 =
        log ++ accepted (frame command parameter1 parameter2 parameter3)) ∧
    (∀ k, k < 5 →
      (∀ j, j < k →
        tx (log ++ accepted ((frame command parameter1 parameter2 parameter3).take j))
          ((frame command parameter1 parameter2 parameter3).getD j 0) = true) →
      tx (log ++ accepted ((frame command parameter1 parameter2 parameter3).take k))
          ((frame command parameter1 parameter2 parameter3).getD k 0) = false →
      Packet_Put tx log command parameter1 parameter2 parameter3 =
        (false, log ++
          accepted ((frame command parameter1 parameter2 parameter3).take k) ++
          [((frame command parameter1 parameter2 parameter3).getD k 0, false)])) := by
  have hx := xor4_mod hc h1 h2 h3
  refine ⟨?_, ?_, ?_⟩
  · simp only [Packet_Put, UART_OutChar, hx, frame, accepted, Nat.forall_lt_succ]
    cases e0 : tx log command <;> simp [e0]
    cases e1 : tx (log ++ [(command, true)]) parameter1 <;> simp [e1]
    cases e2 : tx (log ++ [(command, true), (parameter1, true)]) parameter2 <;>
      simp [e2]
    cases e3 : tx (log ++ [(command, true), (parameter1, true), (parameter2, true)])
      parameter3 <;> simp [e3]
    cases e4 : tx (log ++ [(command, true), (parameter1, true), (parameter2, true),
      (parameter3, true)]) (command ^^^ parameter1 ^^^ parameter2 ^^^ parameter3) <;>
      simp [e4]
  · simp only [Packet_Put, UART_OutChar, hx, frame, accepted]
    cases e0 : tx log command <;> simp [e0]
    cases e1 : tx (log ++ [(command, true)]) parameter1 <;> simp [e1]
    cases e2 : tx (log ++ [(command, true), (parameter1, true)]) parameter2 <;>
      simp [e2]
    cases e3 : tx (log ++ [(command, true), (parameter1, true), (parameter2, true)])
      parameter3 <;> simp [e3]
    cases e4 : tx (log ++ [(command, true), (parameter1, true), (parameter2, true),
      (parameter3, true)]) (command ^^^ parameter1 ^^^ parameter2 ^^^ parameter3) <;>
      simp [e4]
  · intro k hk hbefore hfail
    simp only [Packet_Put, UART_OutChar, hx]
    clear hx
    interval_cases k <;>
      simp only [frame, accepted, Nat.forall_lt_succ] at hbefore hfail <;>
      simp_all [frame, accepted]

theorem Packet_Put_abort_witness :
    Packet_Put acceptTwo [] 0x0B 1 0x34 0x12 =
      (false, [] ++ accepted ((frame 0x0B 1 0x34 0x12).take 2) ++
        [((frame 0x0B 1 0x34 0x12).getD 2 0, false)]) :=
  (Packet_Put_abort acceptTwo [] 0x0B 1 0x34 0x12 (by decide) (by decide) (by decide)
    (by decide)).2.2 2 (by decide) (by decide) (by decide)

/-- C8: GET_VERSION with acknowledgment. For every stored packet whose command is
GET_VERSION with bit 0x80 set and all parameters, with a sink that accepts every byte,
Packet_Handle hands to the sink exactly two frames: the Version packet
(TOWER_VERSION_COMM, TOWER_VERSION_V, TOWER_VERSION_MAJ, TOWER_VERSION_MIN), then the
acknowledgment with command GET_VERSION | 0x80 and the received parameters; the
globals are unchanged. GET_VERSION is a seven-bit code and a case label different from
GET_STARTUP_VAL. -/
theorem Packet_Handle_GET_VERSION_ack (K : Consts) (tx : TxSink) (log : TxLog)
    (s : PacketState)
    (hcode : K.GET_VERSION < 128) (hlabel : K.GET_VERSION ≠ K.GET_STARTUP_VAL)
    (hv0 : K.TOWER_VERSION_COMM < 256) (hv1 : K.TOWER_VERSION_V < 256)
    (hv2 : K.TOWER_VERSION_MAJ < 256) (hv3 : K.TOWER_VERSION_MIN < 256)
    (hcmd : s.Packet_Command = K.GET_VERSION ||| PACKET_ACK_MASK)
    (h1 : s.Packet_Parameter1 < 256) (h2 : s.Packet_Parameter2 < 256)
    (h3 : s.Packet_Parameter3 < 256) (htx : Accepts tx) :
    Packet_Handle K tx log s =
      (log ++
        accepted (frame K.TOWER_VERSION_COMM K.TOWER_VERSION_V K.TOWER_VERSION_MAJ
          K.TOWER_VERSION_MIN) ++
        accepted (frame (K.GET_VERSION ||| PACKET_ACK_MASK) s.Packet_Parameter1
          s.Packet_Parameter2 s.Packet_Parameter3), s) := by
  obtain ⟨m1, m2, m3, m4⟩ := lor_mask_facts K.GET_VERSION hcode
  have hx := xor4_mod hv0 hv1 hv2 hv3
  have hy := xor4_mod m4 h1 h2 h3
  simp [Packet_Handle, hcmd, m1, m2, m3, hx, hy, hlabel, Packet_Put_of_accepts htx,
    accepted, frame]

theorem Packet_Handle_GET_VERSION_ack_witness :
    Packet_Handle towerConsts acceptAll [] stateGetVersionAck =
      ([] ++ accepted (frame 0x09 0x76 1 0) ++ accepted (frame (0x09 ||| 0x80) 1 2 3),
        stateGetVersionAck) :=
  Packet_Handle_GET_VERSION_ack towerConsts acceptAll [] stateGetVersionAck
    (by decide) (by decide) (by decide) (by decide) (by decide) (by decide) (by decide)
    (by decide) (by decide) (by decide) (fun _ _ => rfl)

/-- C9: TOWER_NUMBER/SET with acknowledgment. For all bytes Parameter2 and Parameter3,
handling a packet whose command is TOWER_NUMBER with bit 0x80 set and whose Parameter1
is TOWER_NUMBER_SET sets the tower number Lsb to Parameter2 and its Msb to Parameter3
(the 16-bit value Parameter3 * 256 + Parameter2) and changes no other global; for
every sink the only use of the sink is one Packet_Put of the acknowledgment with
command TOWER_NUMBER | 0x80 and the received parameters, and with a sink that accepts
every byte exactly that frame is handed over. TOWER_NUMBER is a seven-bit code and a
case label different from the two before it; the two sub-commands differ. -/
theorem Packet_Handle_TOWER_NUMBER_SET_ack (K : Consts) (tx : TxSink) (log : TxLog)
    (s : PacketState)
    (hcode : K.TOWER_NUMBER < 128) (hlabel1 : K.TOWER_NUMBER ≠ K.GET_STARTUP_VAL)
    (hlabel2 : K.TOWER_NUMBER ≠ K.GET_VERSION)
    (hsub : K.TOWER_NUMBER_SET ≠ K.TOWER_NUMBER_GET)
    (hcmd : s.Packet_Command = K.TOWER_NUMBER ||| PACKET_ACK_MASK)
    (hset : s.Packet_Parameter1 = K.TOWER_NUMBER_SET)
    (h1 : s.Packet_Parameter1 < 256) (h2 : s.Packet_Parameter2 < 256)
    (h3 : s.Packet_Parameter3 < 256) :
    (Packet_Handle K tx log s).2 =
      { s with towerNumberLsb := s.Packet_Parameter2,
               towerNumberMsb := s.Packet_Parameter3 } ∧
    (Packet_Handle K tx log s).2.towerNumberMsb * 256 +
        (Packet_Handle K tx log s).2.towerNumberLsb =
      s.Packet_Parameter3 * 256 + s.Packet_Parameter2 ∧
    (Packet_Handle K tx log s).1 =
      (Packet_Put tx log (K.TOWER_NUMBER ||| PACKET_ACK_MASK) s.Packet_Parameter1
        s.Packet_Parameter2 s.Packet_Parameter3).2 ∧
    (Accepts tx →
      (Packet_Handle K tx log s).1 =
        log ++ accepted (frame (K.TOWER_NUMBER ||| PACKET_ACK_MASK)
          s.Packet_Parameter1 s.Packet_Parameter2 s.Packet_Parameter3)) := by
  obtain ⟨m1, m2, m3, m4⟩ := lor_mask_facts K.TOWER_NUMBER hcode
  have hy := xor4_mod m4 h1 h2 h3
  have hrun : Packet_Handle K tx log s =
      ((Packet_Put tx log (K.TOWER_NUMBER ||| PACKET_ACK_MASK) s.Packet_Parameter1
        s.Packet_Parameter2 s.Packet_Parameter3).2,
       { s with towerNumberLsb := s.Packet_Parameter2,
                towerNumberMsb := s.Packet_Parameter3 }) := by
    simp [Packet_Handle, hcmd, m1, m2, m3, hlabel1, hlabel2, hset, hsub]
  refine ⟨by rw [hrun], by rw [hrun], by rw [hrun], ?_⟩
  intro htx
  rw [hrun, Packet_Put_of_accepts htx, hy]
  simp [accepted, frame]

theorem Packet_Handle_TOWER_NUMBER_SET_ack_witness :
    (Packet_Handle towerConsts acceptAll [] stateSetNumberAck).2.towerNumberMsb * 256 +
        (Packet_Handle towerConsts acceptAll [] stateSetNumberAck).2.towerNumberLsb =
      0x1234 ∧
    (Packet_Handle towerConsts acceptAll [] stateSetNumberAck).1 =
      [] ++ accepted (frame (0x0B ||| 0x80) 2 0x34 0x12) :=
  ⟨(Packet_Handle_TOWER_NUMBER_SET_ack towerConsts acceptAll [] stateSetNumberAck
      (by decide) (by decide) (by decide) (by decide) (by decide) (by decide)
      (by decide) (by decide) (by decide)).2.1,
   (Packet_Handle_TOWER_NUMBER_SET_ack towerConsts acceptAll [] stateSetNumberAck
      (by decide) (by decide) (by decide) (by decide) (by decide) (by decide)
      (by decide) (by decide) (by decide)).2.2.2 (fun _ _ => rfl)⟩

/-- C10: unmatched command with acknowledgment. For every stored packet whose command
byte has bit 0x80 set and whose low seven bits differ from GET_STARTUP_VAL,
GET_VERSION and TOWER_NUMBER, Packet_Handle leaves every global unchanged (tower
number and stored packet fields); for every sink its only use of the sink is one
Packet_Put of the acknowledgment, whose command is the received command with bit 0x80
cleared and whose parameters are the received ones, and with a sink that accepts every
byte exactly that frame is handed over. -/
theorem Packet_Handle_unmatched_ack (K : Consts) (tx : TxSink) (log : TxLog)
    (s : PacketState)
    (hc : s.Packet_Command < 256) (h1 : s.Packet_Parameter1 < 256)
    (h2 : s.Packet_Parameter2 < 256) (h3 : s.Packet_Parameter3 < 256)
    (hack : s.Packet_Command &&& 0x80 ≠ 0)
    (hn1 : s.Packet_Command &&& 0x7F ≠ K.GET_STARTUP_VAL)
    (hn2 : s.Packet_Command &&& 0x7F ≠ K.GET_VERSION)
    (hn3 : s.Packet_Command &&& 0x7F ≠ K.TOWER_NUMBER) :
    (Packet_Handle K tx log s).2 = s ∧
    (Packet_Handle K tx log s).1 =
      (Packet_Put tx log (s.Packet_Command &&& 0x7F) s.Packet_Parameter1
        s.Packet_Parameter2 s.Packet_Parameter3).2 ∧
    (Accepts tx →
      (Packet_Handle K tx log s).1 =
        log ++ accepted (frame (s.Packet_Command &&& 0x7F) s.Packet_Parameter1
          s.Packet_Parameter2 s.Packet_Parameter3)) := by
  have hm := land_not_mask s.Packet_Command hc
  have hy := xor4_mod (land_7F_lt s.Packet_Command) h1 h2 h3
  have hack2 : s.Packet_Command &&& PACKET_ACK_MASK ≠ 0 := hack
  have hrun : Packet_Handle K tx log s =
      ((Packet_Put tx log (s.Packet_Command &&& 0x7F) s.Packet_Parameter1
        s.Packet_Parameter2 s.Packet_Parameter3).2, s) := by
    simp [Packet_Handle, hn1, hn2, hn3, hack2, hm]
  refine ⟨by rw [hrun], by rw [hrun], ?_⟩
  intro htx
  rw [hrun, Packet_Put_of_accepts htx, hy]
  simp [accepted, frame]

theorem Packet_Handle_unmatched_ack_witness :
    (Packet_Handle towerConsts acceptAll [] stateUnmatchedAck).2 = stateUnmatchedAck ∧
    (Packet_Handle towerConsts acceptAll [] stateUnmatchedAck).1 =
      [] ++ accepted (frame (0xFF &&& 0x7F) 1 2 3) :=
  ⟨(Packet_Handle_unmatched_ack towerConsts acceptAll [] stateUnmatchedAck
      (by decide) (by decide) (by decide) (by decide) (by decide) (by decide)
      (by decide) (by decide)).1,
   (Packet_Handle_unmatched_ack towerConsts acceptAll [] stateUnmatchedAck
      (by decide) (by decide) (by decide) (by decide) (by decide) (by decide)
      (by decide) (by decide)).2.2 (fun _ _ => rfl)⟩

set_option maxRecDepth 20000 in
/-- Setting the acknowledgment bit of a byte gives a byte; when the bit is clear,
masking it out changes nothing. -/
theorem lor_mask_byte (c : Nat) (hc : c < 256) :
    c ||| PACKET_ACK_MASK < 256 ∧
    (c &&& 0x80 = 0 → c &&& 0x7F = c) := by
  have h : ∀ n, n < 256 →
      (n ||| PACKET_ACK_MASK < 256 ∧ (n &&& 0x80 = 0 → n &&& 0x7F = n)) := by decide
  exact h c hc

/-- C11: sink failure during GET_STARTUP. When the masked command is GET_STARTUP_VAL,
the Packet_Put of the Startup packet succeeds and the Packet_Put of the Version packet
fails, the globals are unchanged and the sink is used for nothing but these two calls
and, if bit 0x80 of the received command is set, one Packet_Put of the acknowledgment
whose command is the received command with bit 0x80 cleared: no byte of the
Tower-Number packet is handed to the sink. -/
theorem Packet_Handle_GET_STARTUP_version_fails (K : Consts) (tx : TxSink) (log : TxLog)
    (s : PacketState) (hc : s.Packet_Command < 256)
    (hmatch : s.Packet_Command &&& 0x7F = K.GET_STARTUP_VAL)
    (hput1 : (Packet_Put tx log K.TOWER_STARTUP_COMM K.TOWER_STARTUP_PAR1
      K.TOWER_STARTUP_PAR2 K.TOWER_STARTUP_PAR3).1 = true)
    (hput2 : (Packet_Put tx (Packet_Put tx log K.TOWER_STARTUP_COMM K.TOWER_STARTUP_PAR1
      K.TOWER_STARTUP_PAR2 K.TOWER_STARTUP_PAR3).2 K.TOWER_VERSION_COMM K.TOWER_VERSION_V
      K.TOWER_VERSION_MAJ K.TOWER_VERSION_MIN).1 = false) :
    (Packet_Handle K tx log s).2 = s ∧
    (s.Packet_Command &&& 0x80 = 0 →
      (Packet_Handle K tx log s).1 =
        (Packet_Put tx (Packet_Put tx log K.TOWER_STARTUP_COMM K.TOWER_STARTUP_PAR1
          K.TOWER_STARTUP_PAR2 K.TOWER_STARTUP_PAR3).2 K.TOWER_VERSION_COMM
          K.TOWER_VERSION_V K.TOWER_VERSION_MAJ K.TOWER_VERSION_MIN).2) ∧
    (s.Packet_Command &&& 0x80 ≠ 0 →
      (Packet_Handle K tx log s).1 =
        (Packet_Put tx
          (Packet_Put tx (Packet_Put tx log K.TOWER_STARTUP_COMM K.TOWER_STARTUP_PAR1
            K.TOWER_STARTUP_PAR2 K.TOWER_STARTUP_PAR3).2 K.TOWER_VERSION_COMM
            K.TOWER_VERSION_V K.TOWER_VERSION_MAJ K.TOWER_VERSION_MIN).2
          (s.Packet_Command &&& 0x7F) s.Packet_Parameter1 s.Packet_Parameter2
          s.Packet_Parameter3).2) := by
  have hm : s.Packet_Command &&& NOT_PACKET_ACK_MASK = K.GET_STARTUP_VAL := by
    rw [land_not_mask _ hc, hmatch]
  by_cases hack : s.Packet_Command &&& PACKET_ACK_MASK = 0
  · have hack2 : s.Packet_Command &&& 0x80 = 0 := hack
    simp [Packet_Handle, hm, hput1, hput2, hack, hack2]
  · have hack2 : s.Packet_Command &&& 0x80 ≠ 0 := hack
    simp [Packet_Handle, hm, hput1, hput2, hack, hack2, hmatch]

theorem Packet_Handle_GET_STARTUP_version_fails_witness :
    (Packet_Handle towerConsts acceptSeven [] stateGetStartupAck).1 =
      [(0x04, true), (0, true), (0, true), (0, true), (0x04, true),
        (0x09, true), (0x76, true), (0x01, false), (0x04, false)] :=
  ((Packet_Handle_GET_STARTUP_version_fails towerConsts acceptSeven []
      stateGetStartupAck (by decide) (by decide) (by decide) (by decide)).2.2
    (by decide)).trans (by decide)

/-- C12: GET_STARTUP success path. For every stored packet whose masked command is
GET_STARTUP_VAL, with a sink that accepts every byte, Packet_Handle hands to the sink,
in this order, the frame of the Startup packet (TOWER_STARTUP_COMM and its three fixed
parameters), the frame of the Version packet and the frame of the Tower-Number packet
(TOWER_NUMBER_COMM, TOWER_NUMBER_PAR1, tower number Lsb, tower number Msb), each five
bytes ending in the XOR of its four data bytes; only after them comes the
acknowledgment frame, present exactly when bit 0x80 of the received command is set. The
globals are unchanged. -/
theorem Packet_Handle_GET_STARTUP_success (K : Consts) (tx : TxSink) (log : TxLog)
    (s : PacketState) (hK : K.ResponseBytes)
    (hc : s.Packet_Command < 256) (h1 : s.Packet_Parameter1 < 256)
    (h2 : s.Packet_Parameter2 < 256) (h3 : s.Packet_Parameter3 < 256)
    (hl : s.towerNumberLsb < 256) (hm : s.towerNumberMsb < 256)
    (hmatch : s.Packet_Command &&& 0x7F = K.GET_STARTUP_VAL) (htx : Accepts tx) :
    Packet_Handle K tx log s =
      (log ++
        accepted (frame K.TOWER_STARTUP_COMM K.TOWER_STARTUP_PAR1 K.TOWER_STARTUP_PAR2
          K.TOWER_STARTUP_PAR3) ++
        accepted (frame K.TOWER_VERSION_COMM K.TOWER_VERSION_V K.TOWER_VERSION_MAJ
          K.TOWER_VERSION_MIN) ++
        accepted (frame K.TOWER_NUMBER_COMM K.TOWER_NUMBER_PAR1 s.towerNumberLsb
          s.towerNumberMsb) ++
        (if s.Packet_Command &&& 0x80 ≠ 0 then
          accepted (frame (s.Packet_Command ||| 0x80) s.Packet_Parameter1
            s.Packet_Parameter2 s.Packet_Parameter3)
         else []), s) := by
  obtain ⟨k0, k1, k2, k3, k4, k5, k6, k7, k8, k9⟩ := hK
  have hmask : s.Packet_Command &&& NOT_PACKET_ACK_MASK = K.GET_STARTUP_VAL := by
    rw [land_not_mask _ hc, hmatch]
  have hx1 := xor4_mod k0 k1 k2 k3
  have hx2 := xor4_mod k4 k5 k6 k7
  have hx3 := xor4_mod k8 k9 hl hm
  have hx4 := xor4_mod (lor_mask_byte _ hc).1 h1 h2 h3
  by_cases hack : s.Packet_Command &&& PACKET_ACK_MASK = 0
  · have hack2 : s.Packet_Command &&& 0x80 = 0 := hack
    simp [Packet_Handle, hmask, Packet_Put_of_accepts htx, hx1, hx2, hx3, hack, hack2,
      accepted, frame]
  · have hack2 : s.Packet_Command &&& 0x80 ≠ 0 := hack
    have hor : s.Packet_Command ||| 0x80 = s.Packet_Command ||| PACKET_ACK_MASK := rfl
    simp [Packet_Handle, hmask, Packet_Put_of_accepts htx, hx1, hx2, hx3, hx4, hack,
      hack2, hor, accepted, frame]

theorem Packet_Handle_GET_STARTUP_success_witness :
    Packet_Handle towerConsts acceptAll [] stateGetStartupAck =
      ([] ++ accepted (frame 0x04 0 0 0) ++ accepted (frame 0x09 0x76 1 0) ++
        accepted (frame 0x0B 1 0x66 0x05) ++
        (if 0x84 &&& 0x80 ≠ 0 then accepted (frame (0x84 ||| 0x80) 0 0 0) else []),
        stateGetStartupAck) :=
  Packet_Handle_GET_STARTUP_success towerConsts acceptAll [] stateGetStartupAck
    (by decide) (by decide) (by decide) (by decide) (by decide) (by decide) (by decide)
    (by decide) (fun _ _ => rfl)

/-- `Packet_Handle` is its `switch` statement followed by the acknowledgment step. -/
theorem Packet_Handle_eq_switch (K : Consts) (tx : TxSink) (log : TxLog)
    (s : PacketState) :
    Packet_Handle K tx log s =
      if (Packet_Handle_switch K tx log s).2.2.Packet_Command &&& PACKET_ACK_MASK ≠ 0 then
        ((Packet_Put tx (Packet_Handle_switch K tx log s).2.1
          (if (Packet_Handle_switch K tx log s).1 = true then
            (Packet_Handle_switch K tx log s).2.2.Packet_Command &&& NOT_PACKET_ACK_MASK
           else (Packet_Handle_switch K tx log s).2.2.Packet_Command ||| PACKET_ACK_MASK)
          (Packet_Handle_switch K tx log s).2.2.Packet_Parameter1
          (Packet_Handle_switch K tx log s).2.2.Packet_Parameter2
          (Packet_Handle_switch K tx log s).2.2.Packet_Parameter3).2,
          (Packet_Handle_switch K tx log s).2.2)
      else ((Packet_Handle_switch K tx log s).2.1, (Packet_Handle_switch K tx log s).2.2) :=
  rfl

/-- The `switch` statement leaves the stored packet bytes as they were. -/
theorem Packet_Handle_switch_packet (K : Consts) (tx : TxSink) (log : TxLog)
    (s : PacketState) :
    (Packet_Handle_switch K tx log s).2.2.Packet_Command = s.Packet_Command ∧
    (Packet_Handle_switch K tx log s).2.2.Packet_Parameter1 = s.Packet_Parameter1 ∧
    (Packet_Handle_switch K tx log s).2.2.Packet_Parameter2 = s.Packet_Parameter2 ∧
    (Packet_Handle_switch K tx log s).2.2.Packet_Parameter3 = s.Packet_Parameter3 := by
  unfold Packet_Handle_switch
  simp only
  split_ifs <;> simp

/-- When `Packet_Put` returns true the record grew by the five accepted frame bytes. -/
theorem Packet_Put_true_record (tx : TxSink) (log : TxLog) (c p1 p2 p3 : Nat)
    (h : (Packet_Put tx log c p1 p2 p3).1 = true) :
    Packet_Put tx log c p1 p2 p3 =
      (true, log ++ [(c, true), (p1, true), (p2, true), (p3, true),
        ((c ^^^ p1 ^^^ p2 ^^^ p3) % 256, true)]) := by
  simp only [Packet_Put, UART_OutChar] at h ⊢
  cases e0 : tx log c <;> simp [e0] at h ⊢
  cases e1 : tx (log ++ [(c, true)]) p1 <;> simp [e1] at h ⊢
  cases e2 : tx (log ++ [(c, true), (p1, true)]) p2 <;> simp [e2] at h ⊢
  cases e3 : tx (log ++ [(c, true), (p1, true), (p2, true)]) p3 <;> simp [e3] at h ⊢
  cases e4 : tx (log ++ [(c, true), (p1, true), (p2, true), (p3, true)])
    ((c ^^^ p1 ^^^ p2 ^^^ p3) % 256) <;> simp [e4] at h ⊢

/-- C13: tower number set-then-get round trip. For all bytes Parameter2 = l and
Parameter3 = m: after Packet_Handle has processed a TOWER_NUMBER packet with
Parameter1 = TOWER_NUMBER_SET (acknowledgment bit set or not, any sink, any earlier
tower number), handling a stored packet TOWER_NUMBER with Parameter1 =
TOWER_NUMBER_GET and the acknowledgment bit clear, when the sink takes the packet,
adds to the record exactly the frame of the packet (TOWER_NUMBER_COMM,
TOWER_NUMBER_PAR1, l, m). -/
theorem Packet_Handle_SET_then_GET (K : Consts) (tx : TxSink) (log : TxLog)
    (s : PacketState) (p2 p3 ck pos : Nat)
    (hcode : K.TOWER_NUMBER < 128) (hlabel1 : K.TOWER_NUMBER ≠ K.GET_STARTUP_VAL)
    (hlabel2 : K.TOWER_NUMBER ≠ K.GET_VERSION)
    (hsub : K.TOWER_NUMBER_SET ≠ K.TOWER_NUMBER_GET)
    (hn0 : K.TOWER_NUMBER_COMM < 256) (hn1 : K.TOWER_NUMBER_PAR1 < 256)
    (hc : s.Packet_Command < 256)
    (hmatch : s.Packet_Command &&& 0x7F = K.TOWER_NUMBER)
    (hset : s.Packet_Parameter1 = K.TOWER_NUMBER_SET)
    (hl : s.Packet_Parameter2 < 256) (hm : s.Packet_Parameter3 < 256)
    (hput : (Packet_Put tx (Packet_Handle K tx log s).1 K.TOWER_NUMBER_COMM
      K.TOWER_NUMBER_PAR1 s.Packet_Parameter2 s.Packet_Parameter3).1 = true) :
    (Packet_Handle K tx (Packet_Handle K tx log s).1
      { (Packet_Handle K tx log s).2 with
          Packet_Command := K.TOWER_NUMBER,
          Packet_Parameter1 := K.TOWER_NUMBER_GET,
          Packet_Parameter2 := p2,
          Packet_Parameter3 := p3,
          Packet_Checksum := ck,
          packet_position := pos }).1 =
      (Packet_Handle K tx log s).1 ++
        accepted (frame K.TOWER_NUMBER_COMM K.TOWER_NUMBER_PAR1 s.Packet_Parameter2
          s.Packet_Parameter3) := by
  have hmask : s.Packet_Command &&& NOT_PACKET_ACK_MASK = K.TOWER_NUMBER := by
    rw [land_not_mask _ hc, hmatch]
  have hsw : (Packet_Handle_switch K tx log s).2.2 =
      { s with towerNumberLsb := s.Packet_Parameter2,
               towerNumberMsb := s.Packet_Parameter3 } := by
    simp [Packet_Handle_switch, hmask, hlabel1, hlabel2, hset, hsub]
  have hst : (Packet_Handle K tx log s).2 =
      { s with towerNumberLsb := s.Packet_Parameter2,
               towerNumberMsb := s.Packet_Parameter3 } := by
    rw [Packet_Handle_eq_switch]
    split_ifs <;> exact hsw
  have hclear : K.TOWER_NUMBER &&& NOT_PACKET_ACK_MASK = K.TOWER_NUMBER ∧
      K.TOWER_NUMBER &&& PACKET_ACK_MASK = 0 := by
    have h : ∀ n, n < 128 →
        (n &&& NOT_PACKET_ACK_MASK = n ∧ n &&& PACKET_ACK_MASK = 0) := by decide
    exact h _ hcode
  have hx := xor4_mod hn0 hn1 hl hm
  generalize Packet_Handle K tx log s = r at hput hst ⊢
  obtain ⟨log1, s1⟩ := r
  simp only at hput hst ⊢
  subst hst
  have hrec := Packet_Put_true_record tx log1 _ _ _ _ hput
  simp [Packet_Handle, hclear.1, hclear.2, hlabel1, hlabel2, hrec, hx, accepted, frame]

theorem Packet_Handle_SET_then_GET_witness :
    (Packet_Handle towerConsts refuseFirst
      (Packet_Handle towerConsts refuseFirst [] stateSetNumberAck).1
      { (Packet_Handle towerConsts refuseFirst [] stateSetNumberAck).2 with
          Packet_Command := 0x0B,
          Packet_Parameter1 := 1,
          Packet_Parameter2 := 0,
          Packet_Parameter3 := 0,
          Packet_Checksum := 0x0A,
          packet_position := 0 }).1 =
      (Packet_Handle towerConsts refuseFirst [] stateSetNumberAck).1 ++
        accepted (frame 0x0B 1 0x34 0x12) :=
  Packet_Handle_SET_then_GET towerConsts refuseFirst [] stateSetNumberAck 0 0 0x0A 0
    (by decide) (by decide) (by decide) (by decide) (by decide) (by decide) (by decide)
    (by decide) (by decide) (by decide) (by decide) (by decide)

/-- Offering a concatenation: the second part is offered only when every byte of the
first was accepted. -/
theorem offer_append (tx : TxSink) (log : TxLog) (xs ys : List Nat) :
    offer tx log (xs ++ ys) =
      if offer tx log xs = accepted xs then
        accepted xs ++ offer tx (log ++ accepted xs) ys
      else offer tx log xs := by
  induction xs generalizing log with
  | nil => simp [offer, accepted]
  | cons x xs ih =>
    cases e : tx log x
    · simp [offer, accepted, e]
    · have hL : offer tx log ((x :: xs) ++ ys) =
          (x, true) :: offer tx (log ++ [(x, true)]) (xs ++ ys) := by
        simp [offer, e]
      have hX : offer tx log (x :: xs) =
          (x, true) :: offer tx (log ++ [(x, true)]) xs := by
        simp [offer, e]
      have hA : accepted (x :: xs) = (x, true) :: accepted xs := rfl
      rw [hL, hX, hA, ih (log ++ [(x, true)])]
      by_cases h : offer tx (log ++ [(x, true)]) xs = accepted xs
      · simp [h]
      · simp [h]

/-- `Packet_Put` offers the five bytes of the frame until the first refusal and
returns true exactly when all five were accepted. -/
theorem Packet_Put_offer (tx : TxSink) (log : TxLog) (c p1 p2 p3 : Nat)
    (hc : c < 256) (h1 : p1 < 256) (h2 : p2 < 256) (h3 : p3 < 256) :
    Packet_Put tx log c p1 p2 p3 =
      (decide (offer tx log (frame c p1 p2 p3) = accepted (frame c p1 p2 p3)),
        log ++ offer tx log (frame c p1 p2 p3)) := by
  simp only [Packet_Put, UART_OutChar, xor4_mod hc h1 h2 h3, frame, offer, accepted]
  cases e0 : tx log c <;> simp [e0]
  cases e1 : tx (log ++ [(c, true)]) p1 <;> simp [e1]
  cases e2 : tx (log ++ [(c, true), (p1, true)]) p2 <;> simp [e2]
  cases e3 : tx (log ++ [(c, true), (p1, true), (p2, true)]) p3 <;> simp [e3]
  cases e4 : tx (log ++ [(c, true), (p1, true), (p2, true), (p3, true)])
    (c ^^^ p1 ^^^ p2 ^^^ p3) <;> simp [e4]

/-- A record of offers that consists of accepted entries only is the record of all
the offered bytes, accepted. -/
theorem offer_eq_accepted_self (tx : TxSink) (log : TxLog) (xs zs : List Nat)
    (h : offer tx log xs = accepted zs) : offer tx log xs = accepted xs := by
  induction xs generalizing log zs with
  | nil => simp [offer, accepted]
  | cons x xs ih =>
    cases e : tx log x
    · cases zs with
      | nil => simp [offer, accepted, e] at h
      | cons z zs => simp [offer, accepted, e] at h
    · cases zs with
      | nil => simp [offer, accepted, e] at h
      | cons z zs =>
        simp only [offer, e, if_true, accepted, List.map_cons, List.cons.injEq,
          Prod.mk.injEq, and_true] at h
        have h2 := ih (log ++ [(x, true)]) zs h.2
        simp only [offer, e, if_true, accepted, List.map_cons, List.cons.injEq,
          true_and]
        exact h2

/-- Every byte of a concatenation is accepted exactly when every byte of the first
part is and then every byte of the second part is. -/
theorem offer_eq_accepted_append (tx : TxSink) (log : TxLog) (xs ys : List Nat) :
    offer tx log (xs ++ ys) = accepted (xs ++ ys) ↔
      offer tx log xs = accepted xs ∧
      offer tx (log ++ accepted xs) ys = accepted ys := by
  have hA : accepted (xs ++ ys) = accepted xs ++ accepted ys := by simp [accepted]
  rw [offer_append, hA]
  by_cases a : offer tx log xs = accepted xs
  · simp [a]
  · simp only [a, if_false, false_and, iff_false]
    intro h
    exact a (offer_eq_accepted_self tx log xs (xs ++ ys) (h.trans hA.symm))

theorem accepted_append (xs ys : List Nat) :
    accepted (xs ++ ys) = accepted xs ++ accepted ys := by
  simp [accepted]

/-- The `switch` statement in terms of the record: it offers the response bytes until
the first refusal, and `error` is cleared exactly when a handler was selected and every
response byte was accepted. -/
theorem Packet_Handle_switch_record (K : Consts) (tx : TxSink) (log : TxLog)
    (s : PacketState) (hK : K.ResponseBytes) (hc : s.Packet_Command < 256)
    (hl : s.towerNumberLsb < 256) (hm : s.towerNumberMsb < 256) :
    (Packet_Handle_switch K tx log s).2.1 = log ++ offer tx log (response K s) ∧
    ((Packet_Handle_switch K tx log s).1 = false ↔
      handled K s = true ∧ offer tx log (response K s) = accepted (response K s)) := by
  obtain ⟨k0, k1, k2, k3, k4, k5, k6, k7, k8, k9⟩ := hK
  have hmask := land_not_mask _ hc
  have P1 := fun l => Packet_Put_offer tx l _ _ _ _ k0 k1 k2 k3
  have P2 := fun l => Packet_Put_offer tx l _ _ _ _ k4 k5 k6 k7
  have P3 := fun l => Packet_Put_offer tx l _ _ _ _ k8 k9 hl hm
  unfold Packet_Handle_switch response handled
  rw [hmask]
  by_cases c1 : s.Packet_Command &&& 0x7F = K.GET_STARTUP_VAL
  · simp only [c1, if_true, P1, P2, P3, List.append_assoc, offer_eq_accepted_append,
      decide_eq_true_eq]
    simp only [offer_append]
    split_ifs <;> simp_all
  by_cases c2 : s.Packet_Command &&& 0x7F = K.GET_VERSION
  · simp only [c1, c2, if_true, if_false, P2, decide_eq_true_eq]
    split_ifs <;> simp_all
  by_cases c3 : s.Packet_Command &&& 0x7F = K.TOWER_NUMBER
  · by_cases g : s.Packet_Parameter1 = K.TOWER_NUMBER_GET
    · simp only [c1, c2, c3, g, if_true, if_false, P3, decide_eq_true_eq]
      split_ifs <;> simp_all
    · by_cases st : s.Packet_Parameter1 = K.TOWER_NUMBER_SET
      · have g2 : ¬ K.TOWER_NUMBER_SET = K.TOWER_NUMBER_GET := st ▸ g
        simp only [c1, c2, if_false]
        simp [c3, g2, st, offer, accepted]
      · simp only [c1, c2, if_false]
        simp [c3, g, st, offer, accepted]
  · simp [c1, c2, c3, offer, accepted]

/-- The acknowledgment command that the code computes from `error` is `ackCommand`. -/
theorem Packet_Handle_switch_ackCommand (K : Consts) (tx : TxSink) (log : TxLog)
    (s : PacketState) (hK : K.ResponseBytes) (hc : s.Packet_Command < 256)
    (hl : s.towerNumberLsb < 256) (hm : s.towerNumberMsb < 256) :
    (if (Packet_Handle_switch K tx log s).1 = true then
        s.Packet_Command &&& NOT_PACKET_ACK_MASK
      else s.Packet_Command ||| PACKET_ACK_MASK) = ackCommand K tx log s := by
  have herr := (Packet_Handle_switch_record K tx log s hK hc hl hm).2
  have hor : s.Packet_Command ||| PACKET_ACK_MASK = s.Packet_Command ||| 0x80 := rfl
  rw [land_not_mask _ hc, hor]
  unfold ackCommand
  cases e : (Packet_Handle_switch K tx log s).1
  · rw [if_neg (by simp), if_pos (herr.mp e)]
  · have hn : ¬ (handled K s = true ∧
        offer tx log (response K s) = accepted (response K s)) := by
      intro h
      have := herr.mpr h
      rw [e] at this
      exact Bool.noConfusion this
    rw [if_pos rfl, if_neg hn]

/-- The acknowledgment command is a byte. -/
theorem ackCommand_lt (K : Consts) (tx : TxSink) (log : TxLog) (s : PacketState)
    (hc : s.Packet_Command < 256) : ackCommand K tx log s < 256 := by
  unfold ackCommand
  split_ifs
  · exact (lor_mask_byte _ hc).1
  · exact land_7F_lt _

/-- C14: an acknowledgment is attempted exactly when requested. For every stored
packet and every sink, the record of the sink after Packet_Handle is the old record,
then the response bytes offered until the first refusal, then: when bit 0x80 of
Packet_Command is set, the bytes of exactly one acknowledgment frame offered until the
first refusal, of which at least the command byte is offered (also when a response
write failed before it); when the bit is clear, nothing. The acknowledgment carries
the received parameters and the command with bit 0x80 set when a handler was selected
and every response byte was accepted, with the bit cleared otherwise. With the bit
clear a TOWER_NUMBER/SET packet and an unmatched command hand no byte to the sink. -/
theorem Packet_Handle_ack_when_requested (K : Consts) (tx : TxSink) (log : TxLog)
    (s : PacketState) (hK : K.ResponseBytes)
    (hc : s.Packet_Command < 256) (h1 : s.Packet_Parameter1 < 256)
    (h2 : s.Packet_Parameter2 < 256) (h3 : s.Packet_Parameter3 < 256)
    (hl : s.towerNumberLsb < 256) (hm : s.towerNumberMsb < 256) :
    (s.Packet_Command &&& 0x80 ≠ 0 →
      (Packet_Handle K tx log s).1 =
        log ++ offer tx log (response K s) ++
          offer tx (log ++ offer tx log (response K s))
            (frame (ackCommand K tx log s) s.Packet_Parameter1 s.Packet_Parameter2
              s.Packet_Parameter3) ∧
      (offer tx (log ++ offer tx log (response K s))
          (frame (ackCommand K tx log s) s.Packet_Parameter1 s.Packet_Parameter2
            s.Packet_Parameter3)).head? =
        some (ackCommand K tx log s,
          tx (log ++ offer tx log (response K s)) (ackCommand K tx log s))) ∧
    (s.Packet_Command &&& 0x80 = 0 →
      (Packet_Handle K tx log s).1 = log ++ offer tx log (response K s)) ∧
    (s.Packet_Command &&& 0x80 = 0 →
      s.Packet_Command = K.TOWER_NUMBER → K.TOWER_NUMBER ≠ K.GET_STARTUP_VAL →
      K.TOWER_NUMBER ≠ K.GET_VERSION → K.TOWER_NUMBER_SET ≠ K.TOWER_NUMBER_GET →
      s.Packet_Parameter1 = K.TOWER_NUMBER_SET →
      (Packet_Handle K tx log s).1 = log) ∧
    (s.Packet_Command &&& 0x80 = 0 →
      s.Packet_Command ≠ K.GET_STARTUP_VAL → s.Packet_Command ≠ K.GET_VERSION →
      s.Packet_Command ≠ K.TOWER_NUMBER →
      (Packet_Handle K tx log s).1 = log) := by
  obtain ⟨q0, q1, q2, q3⟩ := Packet_Handle_switch_packet K tx log s
  have hrec := (Packet_Handle_switch_record K tx log s hK hc hl hm).1
  have hcmd := Packet_Handle_switch_ackCommand K tx log s hK hc hl hm
  have hmask := land_not_mask _ hc
  have hbit : s.Packet_Command &&& PACKET_ACK_MASK = s.Packet_Command &&& 0x80 := rfl
  rw [Packet_Handle_eq_switch, q0, q1, q2, q3, hcmd, hbit, hrec]
  refine ⟨?_, ?_, ?_, ?_⟩
  · intro hack
    rw [if_pos hack, Packet_Put_offer tx _ _ _ _ _ (ackCommand_lt K tx log s hc) h1 h2 h3]
    refine ⟨rfl, ?_⟩
    cases e : tx (log ++ offer tx log (response K s)) (ackCommand K tx log s) <;>
      simp [frame, offer, e]
  · intro hack
    rw [if_neg (not_not.mpr hack)]
  · intro hack hcmd2 hl1 hl2 hsub hset
    have hlow := (lor_mask_byte _ hc).2 hack
    have g2 : ¬ s.Packet_Parameter1 = K.TOWER_NUMBER_GET := hset ▸ hsub
    have hm3 : s.Packet_Command &&& 0x7F = K.TOWER_NUMBER := hlow.trans hcmd2
    rw [if_neg (not_not.mpr hack)]
    simp [response, hm3, hl1, hl2, g2, offer]
  · intro hack hn1 hn2 hn3
    have hlow := (lor_mask_byte _ hc).2 hack
    rw [if_neg (not_not.mpr hack)]
    simp [response, hlow, hn1, hn2, hn3, offer]

theorem Packet_Handle_ack_when_requested_witness :
    (Packet_Handle towerConsts acceptSeven [] stateGetStartupAck).1 =
      [(0x04, true), (0, true), (0, true), (0, true), (0x04, true),
        (0x09, true), (0x76, true), (0x01, false), (0x04, false)] ∧
    (Packet_Handle towerConsts refuseFirst [] stateSetNumber).1 = [] :=
  ⟨((Packet_Handle_ack_when_requested towerConsts acceptSeven [] stateGetStartupAck
      (by decide) (by decide) (by decide) (by decide) (by decide) (by decide)
      (by decide)).1 (by decide)).1.trans (by decide),
   (Packet_Handle_ack_when_requested towerConsts refuseFirst [] stateSetNumber
      (by decide) (by decide) (by decide) (by decide) (by decide) (by decide)
      (by decide)).2.2.1 (by decide) (by decide) (by decide) (by decide) (by decide)
      (by decide)⟩

/-- C17: TOWER_NUMBER with an unrecognised sub-command is a handler failure. For every
stored packet whose masked command is TOWER_NUMBER and whose Parameter1 is neither
TOWER_NUMBER_GET nor TOWER_NUMBER_SET, Packet_Handle hands no response packet to the
sink and leaves every global unchanged (tower number Lsb and Msb included); with bit
0x80 of the command clear the sink is not used at all, with the bit set its only use is
one Packet_Put of the acknowledgment whose command is the received command with bit
0x80 cleared and whose parameters are the received ones, and a sink that accepts every
byte is handed exactly that frame. -/
theorem Packet_Handle_TOWER_NUMBER_unknown_sub (K : Consts) (tx : TxSink) (log : TxLog)
    (s : PacketState)
    (hc : s.Packet_Command < 256) (h1 : s.Packet_Parameter1 < 256)
    (h2 : s.Packet_Parameter2 < 256) (h3 : s.Packet_Parameter3 < 256)
    (hmatch : s.Packet_Command &&& 0x7F = K.TOWER_NUMBER)
    (hlabel1 : K.TOWER_NUMBER ≠ K.GET_STARTUP_VAL)
    (hlabel2 : K.TOWER_NUMBER ≠ K.GET_VERSION)
    (hget : s.Packet_Parameter1 ≠ K.TOWER_NUMBER_GET)
    (hset : s.Packet_Parameter1 ≠ K.TOWER_NUMBER_SET) :
    (Packet_Handle K tx log s).2 = s ∧
    (s.Packet_Command &&& 0x80 = 0 → (Packet_Handle K tx log s).1 = log) ∧
    (s.Packet_Command &&& 0x80 ≠ 0 →
      (Packet_Handle K tx log s).1 =
        (Packet_Put tx log (s.Packet_Command &&& 0x7F) s.Packet_Parameter1
          s.Packet_Parameter2 s.Packet_Parameter3).2) ∧
    (s.Packet_Command &&& 0x80 ≠ 0 → Accepts tx →
      (Packet_Handle K tx log s).1 =
        log ++ accepted (frame (s.Packet_Command &&& 0x7F) s.Packet_Parameter1
          s.Packet_Parameter2 s.Packet_Parameter3)) := by
  have hmask : s.Packet_Command &&& NOT_PACKET_ACK_MASK = K.TOWER_NUMBER := by
    rw [land_not_mask _ hc, hmatch]
  have hy := xor4_mod (land_7F_lt s.Packet_Command) h1 h2 h3
  have hsw : Packet_Handle_switch K tx log s = (true, log, s) := by
    simp [Packet_Handle_switch, hmask, hlabel1, hlabel2, hget, hset]
  have hbit : s.Packet_Command &&& PACKET_ACK_MASK = s.Packet_Command &&& 0x80 := rfl
  rw [Packet_Handle_eq_switch, hsw]
  simp only [hmask, hbit, if_true]
  refine ⟨?_, ?_, ?_, ?_⟩
  · split_ifs <;> rfl
  · intro hack
    rw [if_neg (not_not.mpr hack)]
  · intro hack
    rw [if_pos hack, hmatch]
  · intro hack htx
    rw [if_pos hack, Packet_Put_of_accepts htx, ← hmatch, hy]
    simp [accepted, frame]

theorem Packet_Handle_TOWER_NUMBER_unknown_sub_witness :
    (Packet_Handle towerConsts acceptAll [] stateNumberSub7Ack).2 = stateNumberSub7Ack ∧
    (Packet_Handle towerConsts acceptAll [] stateNumberSub7Ack).1 =
      [] ++ accepted (frame (0x8B &&& 0x7F) 7 0x34 0x12) :=
  ⟨(Packet_Handle_TOWER_NUMBER_unknown_sub towerConsts acceptAll [] stateNumberSub7Ack
      (by decide) (by decide) (by decide) (by decide) (by decide) (by decide)
      (by decide) (by decide) (by decide)).1,
   (Packet_Handle_TOWER_NUMBER_unknown_sub towerConsts acceptAll [] stateNumberSub7Ack
      (by decide) (by decide) (by decide) (by decide) (by decide) (by decide)
      (by decide) (by decide) (by decide)).2.2.2 (by decide) (fun _ _ => rfl)⟩

/-- One call of the two assemblers on states that agree below the cursor delivers the
same and leads to states that agree below the cursor. -/
theorem SameWindow_step (b : Nat) (s t : PacketState) (h : SameWindow s t) :
    delivered (Packet_Get (some b) s) = delivered (Packet_Get_noshift (some b) t) ∧
    SameWindow (Packet_Get (some b) s).2 (Packet_Get_noshift (some b) t).2 := by
  obtain ⟨hp, hc, h1, h2, h3⟩ := h
  by_cases p0 : s.packet_position = 0
  · have q0 : t.packet_position = 0 := hp ▸ p0
    simp [Packet_Get, Packet_Get_noshift, delivered, SameWindow, p0, q0]
  by_cases p1 : s.packet_position = 1
  · have q1 : t.packet_position = 1 := hp ▸ p1
    have e := hc (by omega)
    simp [Packet_Get, Packet_Get_noshift, delivered, SameWindow, p1, q1, e]
  by_cases p2 : s.packet_position = 2
  · have q2 : t.packet_position = 2 := hp ▸ p2
    have e := hc (by omega)
    have e1 := h1 (by omega)
    simp [Packet_Get, Packet_Get_noshift, delivered, SameWindow, p2, q2, e, e1]
  by_cases p3 : s.packet_position = 3
  · have q3 : t.packet_position = 3 := hp ▸ p3
    have e := hc (by omega)
    have e1 := h1 (by omega)
    have e2 := h2 (by omega)
    simp [Packet_Get, Packet_Get_noshift, delivered, SameWindow, p3, q3, e, e1, e2]
  by_cases p4 : s.packet_position = 4
  · have q4 : t.packet_position = 4 := hp ▸ p4
    have e := hc (by omega)
    have e1 := h1 (by omega)
    have e2 := h2 (by omega)
    have e3 := h3 (by omega)
    by_cases ht : (t.Packet_Command ^^^ t.Packet_Parameter1 ^^^ t.Packet_Parameter2
        ^^^ t.Packet_Parameter3) % 256 = b
    · simp [Packet_Get, Packet_Get_noshift, delivered, SameWindow, PacketTest, p4, q4,
        e, e1, e2, e3, ht]
    · simp [Packet_Get, Packet_Get_noshift, delivered, SameWindow, PacketTest, p4, q4,
        e, e1, e2, e3, ht]
  · have q0 : ¬ t.packet_position = 0 := hp ▸ p0
    have q1 : ¬ t.packet_position = 1 := hp ▸ p1
    have q2 : ¬ t.packet_position = 2 := hp ▸ p2
    have q3 : ¬ t.packet_position = 3 := hp ▸ p3
    have q4 : ¬ t.packet_position = 4 := hp ▸ p4
    simp [Packet_Get, Packet_Get_noshift, delivered, SameWindow, p0, p1, p2, p3, p4,
      q0, q1, q2, q3, q4]

/-- From states that agree below the cursor the two assemblers deliver the same on
every byte stream. -/
theorem SameWindow_trace (bytes : List Nat) (s t : PacketState) (h : SameWindow s t) :
    Packet_Get_trace Packet_Get bytes s = Packet_Get_trace Packet_Get_noshift bytes t := by
  induction bytes generalizing s t with
  | nil => simp [Packet_Get_trace]
  | cons b bs ih =>
    obtain ⟨hd, hw⟩ := SameWindow_step b s t h
    simp only [Packet_Get_trace, hd, ih _ _ hw]

/-- One call keeps the cursor in 0..4. -/
theorem Packet_Get_position_le (rx : Option Nat) (s : PacketState)
    (h : s.packet_position ≤ 4) : (Packet_Get rx s).2.packet_position ≤ 4 := by
  cases rx with
  | none => simpa [Packet_Get] using h
  | some b =>
    unfold Packet_Get
    simp only
    split_ifs <;> simp <;> omega

/-- Any number of calls keeps the cursor in 0..4. -/
theorem Packet_Get_calls_position_le (rxs : List (Option Nat)) (s : PacketState)
    (h : s.packet_position ≤ 4) : (Packet_Get_calls rxs s).2.packet_position ≤ 4 := by
  induction rxs generalizing s with
  | nil => simpa [Packet_Get_calls] using h
  | cons rx rxs ih =>
    simp only [Packet_Get_calls]
    exact ih _ (Packet_Get_position_le rx s h)

/-- C15: when the receiver has no byte (UART_InChar reports failure), Packet_Get
returns false and leaves packet_position, Packet_Command, Packet_Parameter1,
Packet_Parameter2, Packet_Parameter3, Packet_Checksum and every other global as they
were, for every prior state. -/
theorem Packet_Get_no_byte (s : PacketState) :
    (Packet_Get none s).1 = false ∧ (Packet_Get none s).2 = s ∧
    (Packet_Get none s).2.packet_position = s.packet_position ∧
    (Packet_Get none s).2.Packet_Command = s.Packet_Command ∧
    (Packet_Get none s).2.Packet_Parameter1 = s.Packet_Parameter1 ∧
    (Packet_Get none s).2.Packet_Parameter2 = s.Packet_Parameter2 ∧
    (Packet_Get none s).2.Packet_Parameter3 = s.Packet_Parameter3 ∧
    (Packet_Get none s).2.Packet_Checksum = s.Packet_Checksum := by
  simp [Packet_Get]

/-- C16: cursor invariant. Starting with packet_position = 0, after every finite
sequence of Packet_Get calls (with or without a byte available, whatever the bytes)
packet_position is at most 4; the same holds before each call of the sequence, so no
call takes the default branch. -/
theorem Packet_Get_cursor_invariant (rxs : List (Option Nat)) (s : PacketState)
    (hpos : s.packet_position = 0) :
    (Packet_Get_calls rxs s).2.packet_position ≤ 4 ∧
    ∀ n, (Packet_Get_calls (rxs.take n) s).2.packet_position ≤ 4 :=
  ⟨Packet_Get_calls_position_le rxs s (by omega),
   fun n => Packet_Get_calls_position_le (rxs.take n) s (by omega)⟩

theorem Packet_Get_cursor_invariant_witness :
    (Packet_Get_calls [some 0xFF, none, some 4, some 0, some 0, none, some 0, some 4]
      stateAt0).2.packet_position ≤ 4 :=
  (Packet_Get_cursor_invariant
    [some 0xFF, none, some 4, some 0, some 0, none, some 0, some 4] stateAt0 rfl).1

/-- C18: the shift on checksum mismatch is unobservable. For every byte stream fed one
byte per call from a state with the cursor at 0, Packet_Get and the reference
assembler that only resets the cursor on a mismatch give the same sequence of results
and, on every true result, the same Packet_Command, Packet_Parameter1,
Packet_Parameter2, Packet_Parameter3 and Packet_Checksum. -/
theorem Packet_Get_refines_noshift (bytes : List Nat) (s : PacketState)
    (hpos : s.packet_position = 0) :
    Packet_Get_trace Packet_Get bytes s = Packet_Get_trace Packet_Get_noshift bytes s := by
  apply SameWindow_trace
  refine ⟨rfl, ?_, ?_, ?_, ?_⟩ <;> intro h <;> omega

theorem Packet_Get_refines_noshift_witness :
    Packet_Get_trace Packet_Get [0xFF, 4, 0, 0, 0, 4, 0, 0, 0, 4, 9, 1, 2, 3, 9]
        stateAt0 =
      Packet_Get_trace Packet_Get_noshift [0xFF, 4, 0, 0, 0, 4, 0, 0, 0, 4, 9, 1, 2, 3, 9]
        stateAt0 :=
  Packet_Get_refines_noshift [0xFF, 4, 0, 0, 0, 4, 0, 0, 0, 4, 9, 1, 2, 3, 9] stateAt0 rfl

end Packet

namespace RTC

/-- C19: RTC_Get decodes what RTC_Set encodes. For every hours <= 23, minutes <= 59 and
seconds <= 59, RTC_Set writes hours*3600 + minutes*60 + seconds to RTC_TSR, and RTC_Get
on the registers as RTC_Set left them stores exactly the same hours, minutes and
seconds. -/
theorem RTC_Get_Set (mask : Nat) (r : RTCRegs) (hours minutes seconds : Nat)
    (hh : hours ≤ 23) (hm : minutes ≤ 59) (hs : seconds ≤ 59) :
    (RTC_Set mask r hours minutes seconds).RTC_TSR =
      hours * 3600 + minutes * 60 + seconds ∧
    RTC_Get (RTC_Set mask r hours minutes seconds) = (hours, minutes, seconds) := by
  have ht : (hours * 3600 + minutes * 60 + seconds) % 2 ^ 32 =
      hours * 3600 + minutes * 60 + seconds := by
    apply Nat.mod_eq_of_lt
    norm_num
    omega
  simp only [RTC_Set, RTC_Get, ht, Prod.mk.injEq, true_and]
  refine ⟨?_, ?_, ?_⟩ <;> omega

theorem RTC_Get_Set_witness :
    (RTC_Set 0x10 regs0 23 59 58).RTC_TSR = 23 * 3600 + 59 * 60 + 58 ∧
    RTC_Get (RTC_Set 0x10 regs0 23 59 58) = (23, 59, 58) :=
  RTC_Get_Set 0x10 regs0 23 59 58 (by decide) (by decide) (by decide)

end RTC
